import Mathlib

/-!
# car-portal: session client (`services/api.js`) and auth store

A shallow embedding of the axios response interceptor of
`frontend/src/services/api.js` together with the browser state it touches.

The interceptor is event driven.  A network reply is one task of the event
loop; the promise reactions it triggers are jobs that run, first in first out,
before the next task.  A promise that waits for an `api(...)` call is
represented by the continuation (`Kont`) of that call.

Module state (`isRefreshing`, `failedQueue`) is read and written only by the
handlers of the response interceptor, so the body of a handler is one atomic
step.  The request interceptor only rewrites headers and the response path only
reads `url`, so a call keeps the config `api` was called with.  An assignment
to `window.location.href` is recorded in `href`; the page it leaves is not
modelled further.
-/

namespace CarPortal

/-! ## Values -/

/-- JavaScript values, as far as the session client inspects them. -/
inductive JsVal where
  | undefined
  | null
  | bool (b : Bool)
  | num (n : Int)
  | str (s : String)
  | obj (fields : List (String × String))
  deriving DecidableEq, Repr

/-- Truthiness of a value in a JavaScript condition. -/
def JsVal.truthy : JsVal → Bool
  | .undefined => false
  | .null => false
  | .bool b => b
  | .num n => n != 0
  | .str s => s != ""
  | .obj _ => true

/-- Worker of `jsIncludes` on character lists. -/
def includesChars (sub : List Char) : List Char → Bool
  | [] => sub.isEmpty
  | c :: cs => sub.isPrefixOf (c :: cs) || includesChars sub cs

/-- `s.includes(sub)` of JavaScript strings. -/
def jsIncludes (s sub : String) : Bool :=
  includesChars sub.data s.data

/-- A key-value store: `localStorage`, `sessionStorage`, the cookie jar. -/
abbrev Storage := List (String × String)

/-- `storage.getItem(key)`. -/
def Storage.getItem (st : Storage) (key : String) : Option String :=
  (st.find? (fun kv => kv.1 == key)).map (fun kv => kv.2)

/-- `storage.removeItem(key)`, also `Cookies.remove(key)`. -/
def Storage.removeItem (st : Storage) (key : String) : Storage :=
  st.filter (fun kv => kv.1 != key)

/-- `storage.setItem(key, value)`. -/
def Storage.setItem (st : Storage) (key value : String) : Storage :=
  st.removeItem key ++ [(key, value)]

/-! ## Requests, responses, errors -/

/-- An axios request config. -/
structure Config where
  url : String
  method : String
  headers : List (String × String)
  data : JsVal
  deriving DecidableEq, Repr

/-- An axios response. -/
structure Response where
  status : Nat
  data : JsVal
  headers : List (String × String)
  statusText : Option String
  deriving DecidableEq, Repr

/-- The value a request promise is rejected with: an AxiosError, or the plain
object the interceptor builds from one (`code` and `isAxiosError` are then
missing). -/
structure ApiError where
  response : Option Response
  config : Config
  request : Option Nat
  message : String
  code : Option String
  isAxiosError : Bool
  deriving DecidableEq, Repr

/-- How a promise for a response settles. -/
inductive Settled where
  | fulfilled (response : Response)
  | rejected (error : ApiError)
  deriving DecidableEq, Repr

/-- What the backend (or the transport) answers to one call. -/
inductive Reply where
  | success (response : Response)
  | failure (response : Option Response) (message : String) (code : Option String)
  deriving DecidableEq, Repr

/-! ## Continuations -/

/-- What waits for the promise of an `api(...)` call.
* `caller k`: code outside the interceptor (caller number `k`);
* `afterCheck originalRequest next`: the `.then/.catch/.finally` chain of
  api.js 72-96 on `api.get('/user/checklogin')`, whose result goes to `next`;
* `afterRetry next`: the same chain once its `then` handler has returned
  `api(originalRequest)` (line 76): `.catch/.finally` are still to run. -/
inductive Kont where
  | caller (k : Nat)
  | afterCheck (originalRequest : Config) (next : Kont)
  | afterRetry (next : Kont)
  deriving DecidableEq, Repr

/-- An entry `{ resolve, reject }` of `failedQueue` (api.js 60-66): resolving it
calls `api(originalRequest)` and hands the outcome to `next`, rejecting it
rejects `next`. -/
structure Pending where
  originalRequest : Config
  next : Kont
  deriving DecidableEq, Repr

/-- A call that was sent and has no reply yet. -/
structure Call where
  id : Nat
  config : Config
  kont : Kont
  deriving DecidableEq, Repr

/-- A promise reaction waiting in the job queue. -/
inductive Job where
  | settle (kont : Kont) (result : Settled)
  | replay (prom : Pending) (token : JsVal)
  deriving DecidableEq, Repr

/-- Observable actions, in the order they happen. -/
inductive Effect where
  | sent (id : Nat) (config : Config)
  | settled (k : Nat) (result : Settled)
  deriving DecidableEq, Repr

/-- The auth store of `AuthContext.js` (React state of `AuthProvider`). -/
structure AuthState where
  user : JsVal
  isAuthenticated : Bool
  isLoading : Bool
  deriving DecidableEq, Repr

/-- Module state of `api.js` and the browser state around it. -/
structure World where
  isRefreshing : Bool
  failedQueue : List Pending
  cookies : Storage
  localStorage : Storage
  sessionStorage : Storage
  pathname : String
  href : Option String
  auth : AuthState
  inflight : List Call
  nextId : Nat
  jobs : List Job
  log : List Effect
  deriving DecidableEq, Repr

/-! ## api.js -/

/-- The path of the check-session endpoint. -/
def checkLoginPath : String := "/user/checklogin"

/-- The config of `api.get('/user/checklogin')`. -/
def checkLoginConfig : Config :=
  { url := checkLoginPath, method := "get", headers := [], data := .undefined }

/-- Calling `api(config)`: the call is sent, `kont` waits for its promise. -/
def api (config : Config) (kont : Kont) (w : World) : World :=
  { w with
    inflight := w.inflight ++ [{ id := w.nextId, config := config, kont := kont }]
    nextId := w.nextId + 1
    log := w.log ++ [Effect.sent w.nextId config] }

/-- A promise with continuation `kont` settles: its reaction becomes a job. -/
def settle (kont : Kont) (result : Settled) (w : World) : World :=
  { w with jobs := w.jobs ++ [Job.settle kont result] }

/-- `processQueue(error, token)`, api.js 23-32. -/
def processQueue (error : Option ApiError) (token : JsVal) (w : World) : World :=
  { w with
    jobs := w.jobs ++ w.failedQueue.map (fun prom =>
      match error with
      | some e => Job.settle prom.next (Settled.rejected e)
      | none => Job.replay prom token)
    failedQueue := [] }

/-- `error.response?.status`. -/
def ApiError.status (error : ApiError) : Option Nat :=
  error.response.map (fun r => r.status)

/-- `error.response?.data`. -/
def ApiError.data (error : ApiError) : JsVal :=
  match error.response with
  | some r => r.data
  | none => .undefined

/-- The object built at api.js 101-110. -/
def normalize (error : ApiError) : ApiError :=
  { response := error.response.map (fun r =>
      { status := r.status, data := r.data, headers := r.headers, statusText := none })
    config := error.config
    request := error.request
    message := error.message
    code := none
    isAxiosError := false }

/-- The rejection handler of the response interceptor, api.js 54-114, for a
call whose promise is awaited by `kont`. -/
def onRejected (kont : Kont) (error : ApiError) (w : World) : World :=
  let originalRequest := error.config
  if error.status = some 401 ∧ jsIncludes originalRequest.url checkLoginPath = false then
    if w.isRefreshing then
      { w with failedQueue := w.failedQueue ++ [{ originalRequest := originalRequest, next := kont }] }
    else
      api checkLoginConfig (Kont.afterCheck originalRequest kont) { w with isRefreshing := true }
  else if error.data.truthy then
    settle kont (Settled.rejected (normalize error)) w
  else
    settle kont (Settled.rejected error) w

/-- The `then` handler of api.js 73-77. -/
def refreshThen (originalRequest : Config) (next : Kont) (response : Response) (w : World) : World :=
  api originalRequest (Kont.afterRetry next) (processQueue none response.data w)

/-- The `catch` handler of api.js 78-93 (its returned rejection is passed on by
`refreshFinally`). -/
def refreshCatch (refreshError : ApiError) (w : World) : World :=
  let w1 := processQueue (some refreshError) .null w
  let w2 := { w1 with
    cookies := w1.cookies.removeItem "auth_token"
    localStorage := (w1.localStorage.removeItem "user").removeItem "auth_checked"
    sessionStorage := [] }
  if jsIncludes w2.pathname "/login" = false ∧ jsIncludes w2.pathname "/register" = false then
    { w2 with href := some "/login" }
  else
    w2

/-- The `finally` handler of api.js 94-96; the chain then settles `next`. -/
def refreshFinally (next : Kont) (result : Settled) (w : World) : World :=
  settle next result { w with isRefreshing := false }

/-- One promise reaction.  A fulfilled check-session call runs the `then`
handler; the `finally` handler then waits for the retry it returned.  A rejected
check-session call, a rejected retry, or a fulfilled retry run the rest of the
chain (`catch` only on rejection, then `finally`) and settle the promise the
rejection handler of the interceptor had returned.  A resolved queue entry
calls `api(originalRequest)` (api.js 62-63); a rejected one passes the error on
(api.js 64-66). -/
def runJob (job : Job) (w : World) : World :=
  match job with
  | .settle (.caller k) result => { w with log := w.log ++ [Effect.settled k result] }
  | .settle (.afterCheck originalRequest next) (.fulfilled response) =>
      refreshThen originalRequest next response w
  | .settle (.afterCheck _ next) (.rejected refreshError) =>
      refreshFinally next (.rejected refreshError) (refreshCatch refreshError w)
  | .settle (.afterRetry next) (.fulfilled response) =>
      refreshFinally next (.fulfilled response) w
  | .settle (.afterRetry next) (.rejected refreshError) =>
      refreshFinally next (.rejected refreshError) (refreshCatch refreshError w)
  | .replay prom _ => api prom.originalRequest prom.next w

/-- Run the job queue, first in first out, for at most `fuel` jobs. -/
def drain : Nat → World → World
  | 0, w => w
  | fuel + 1, w =>
    match w.jobs with
    | [] => w
    | job :: rest => drain fuel (runJob job { w with jobs := rest })

/-- Reactions still owed to a continuation. -/
def Kont.depth : Kont → Nat
  | .caller _ => 1
  | .afterCheck _ next => next.depth + 1
  | .afterRetry next => next.depth + 1

/-- Jobs a queued job can still cause. -/
def Job.weight : Job → Nat
  | .settle kont _ => kont.depth
  | .replay _ _ => 1

/-- A bound on the number of jobs `drain` has to run from `w`. -/
def World.weight (w : World) : Nat :=
  (w.jobs.map Job.weight).sum + (w.failedQueue.map (fun prom => prom.next.depth + 1)).sum

/-- Run all pending promise reactions. -/
def flush (w : World) : World :=
  drain w.weight w

/-- The error axios builds for a failed call. -/
def mkError (call : Call) (response : Option Response) (message : String) (code : Option String) :
    ApiError :=
  { response := response, config := call.config, request := some call.id,
    message := message, code := code, isAxiosError := true }

/-- The response interceptor applied to the reply of `call`; the fulfilment
handler is `response => response` (api.js 53). -/
def intercept (call : Call) (reply : Reply) (w : World) : World :=
  match reply with
  | .success response => settle call.kont (Settled.fulfilled response) w
  | .failure response message code => onRejected call.kont (mkError call response message code) w

/-- The call `id` got its reply: it is no longer in flight. -/
def removeCall (id : Nat) (w : World) : World :=
  { w with inflight := w.inflight.filter (fun c => c.id != id) }

/-- One task of the event loop: the reply to call `id` arrives, the interceptor
runs, then all promise reactions run. -/
def deliver (id : Nat) (reply : Reply) (w : World) : World :=
  match w.inflight.find? (fun c => c.id == id) with
  | none => w
  | some call => flush (intercept call reply (removeCall id w))

/-- What happens to the client. -/
inductive Event where
  | request (k : Nat) (config : Config)
  | reply (id : Nat) (reply : Reply)
  deriving DecidableEq, Repr

/-- One event. -/
def step (w : World) : Event → World
  | .request k config => api config (Kont.caller k) w
  | .reply id reply => deliver id reply w

/-- A run of events. -/
def run (events : List Event) (w : World) : World :=
  events.foldl step w

/-- The client right after the module is loaded, on page `pathname`. -/
def World.initial (pathname : String) (cookies localStorage sessionStorage : Storage)
    (auth : AuthState) : World :=
  { isRefreshing := false, failedQueue := [], cookies := cookies, localStorage := localStorage,
    sessionStorage := sessionStorage, pathname := pathname, href := none, auth := auth,
    inflight := [], nextId := 0, jobs := [], log := [] }

/-! ## api.js: the request interceptor -/

/-- The value of `Cookies.get(name)`: the stored text, or undefined. -/
def cookieValue (cookies : Storage) (name : String) : JsVal :=
  match cookies.getItem name with
  | some text => .str text
  | none => .undefined

/-- The fulfilment handler of the request interceptor, api.js 35-46. -/
def requestInterceptor (cookies : Storage) (config : Config) : Config :=
  let token := cookieValue cookies "auth_token"
  let headers1 :=
    match token with
    | .str text =>
      if token.truthy then Storage.setItem config.headers "Authorization" ("Bearer " ++ text)
      else config.headers
    | _ => config.headers
  let headers2 := Storage.setItem headers1 "Cache-Control" "no-cache, no-store, must-revalidate"
  let headers3 := Storage.setItem headers2 "Pragma" "no-cache"
  let headers4 := Storage.setItem headers3 "Expires" "0"
  { config with headers := headers4 }

/-! ## AuthContext.js -/

/-- What a promise of the auth store, or a statement of it, can throw. -/
inductive JsError where
  | api (error : ApiError)
  | typeError (message : String)
  | syntaxError (text : String)
  deriving DecidableEq, Repr

/-- How the promise returned by an async function of the store settles. -/
inductive Completion (α : Type) where
  | resolved (value : α)
  | rejected (error : JsError)
  deriving DecidableEq, Repr

/-- The built-ins `JSON.parse` (none when it throws) and `JSON.stringify`. -/
structure JsonApi where
  parse : String → Option JsVal
  stringify : JsVal → String

/-- The state `AuthProvider` starts with (AuthContext.js 26-28). -/
def AuthState.initial : AuthState :=
  { user := .null, isAuthenticated := false, isLoading := true }

/-- `setUser(value)`. -/
def setUser (value : JsVal) (w : World) : World :=
  { w with auth := { w.auth with user := value } }

/-- `setIsAuthenticated(value)`. -/
def setIsAuthenticated (value : Bool) (w : World) : World :=
  { w with auth := { w.auth with isAuthenticated := value } }

/-- `setIsLoading(value)`. -/
def setIsLoading (value : Bool) (w : World) : World :=
  { w with auth := { w.auth with isLoading := value } }

/-- The `try` block of `checkAuth` (AuthContext.js 35-46), run when the promise
of `api.get('/user/checklogin')` has settled with `outcome`. -/
def checkAuthTry (json : JsonApi) (outcome : Settled) (w : World) :
    Except JsError (World × JsVal) :=
  match outcome with
  | .rejected error => .error (JsError.api error)
  | .fulfilled response =>
    let w1 := setIsAuthenticated true (setUser response.data w)
    let w2 :=
      if response.data.truthy then
        { w1 with localStorage := w1.localStorage.setItem "user" (json.stringify response.data) }
      else w1
    .ok (w2, response.data)

/-- The `catch` block of `checkAuth` (AuthContext.js 47-52). -/
def checkAuthCatch (w : World) : World × JsVal :=
  let w1 := setIsAuthenticated false (setUser .null w)
  ({ w1 with localStorage := w1.localStorage.removeItem "user" }, .null)

/-- `checkAuth` (AuthContext.js 34-56) from the moment its call has settled. -/
def checkAuth (json : JsonApi) (outcome : Settled) (w : World) : World × Completion JsVal :=
  let done :=
    match checkAuthTry json outcome w with
    | .ok result => result
    | .error _ => checkAuthCatch w
  (setIsLoading false done.1, Completion.resolved done.2)

/-- The `try` block of the initialization effect (AuthContext.js 64-67). -/
def hydrateTry (json : JsonApi) (savedUser : String) (w : World) : Except JsError World :=
  match json.parse savedUser with
  | none => .error (JsError.syntaxError savedUser)
  | some userData => .ok (setIsAuthenticated true (setUser userData w))

/-- A call the store makes to one of its own async functions. -/
inductive AuthCall where
  | checkAuth
  deriving DecidableEq, Repr

/-- The initialization effect of `AuthProvider` (AuthContext.js 61-73): the
state after its synchronous part and the calls it has started. -/
def initEffect (json : JsonApi) (w : World) : World × List AuthCall :=
  let savedUser := w.localStorage.getItem "user"
  let w1 :=
    match savedUser with
    | some text =>
      if (JsVal.str text).truthy then
        match hydrateTry json text w with
        | .ok hydrated => hydrated
        | .error _ => { w with localStorage := w.localStorage.removeItem "user" }
      else w
    | none => w
  (w1, [AuthCall.checkAuth])

/-- `login` (AuthContext.js 78-83) from the moment `api.post('/user/login')`
has settled. -/
def login (outcome : Settled) (w : World) : World × Completion JsVal :=
  match outcome with
  | .rejected error => (w, Completion.rejected (JsError.api error))
  | .fulfilled response =>
    (setIsAuthenticated true (setUser response.data w), Completion.resolved response.data)

/-- `logout` (AuthContext.js 88-93) from the moment `api.get('/user/logout')`
has settled. -/
def logout (outcome : Settled) (w : World) : World × Completion JsVal :=
  match outcome with
  | .rejected error => (w, Completion.rejected (JsError.api error))
  | .fulfilled _ =>
    let w1 := setIsAuthenticated false (setUser .null w)
    ({ w1 with cookies := w1.cookies.removeItem "auth_token" }, Completion.resolved .undefined)

/-- `register` (AuthContext.js 98-101) from the moment `api.post('/user/signup')`
has settled. -/
def register (outcome : Settled) (w : World) : World × Completion JsVal :=
  match outcome with
  | .rejected error => (w, Completion.rejected (JsError.api error))
  | .fulfilled response => (w, Completion.resolved response.data)

/-- `String(value)`: the text the model keeps for a field of an object. -/
def JsVal.asText : JsVal → String
  | .undefined => "undefined"
  | .null => "null"
  | .bool b => if b then "true" else "false"
  | .num n => toString n
  | .str s => s
  | .obj _ => "[object Object]"

/-- The own enumerable properties `...value` copies. -/
def JsVal.spread : JsVal → List (String × String)
  | .obj fields => fields
  | .str s => s.data.enum.map (fun ic => (toString ic.1, ic.2.toString))
  | _ => []

/-- `value[name]`: a TypeError on undefined and null. -/
def JsVal.getProp (value : JsVal) (name : String) : Except JsError JsVal :=
  match value with
  | .undefined =>
    .error (JsError.typeError ("Cannot read properties of undefined (reading '" ++ name ++ "')"))
  | .null =>
    .error (JsError.typeError ("Cannot read properties of null (reading '" ++ name ++ "')"))
  | .obj fields =>
    match Storage.getItem fields name with
    | some text => .ok (.str text)
    | none => .ok .undefined
  | _ => .ok .undefined

/-- `a || b`. -/
def jsOr (a b : JsVal) : JsVal :=
  if a.truthy then a else b

/-- The updater passed to `setUser` at AuthContext.js 115-120. -/
def mergeAvatar (data : JsVal) (prev : JsVal) : JsVal :=
  if prev.truthy then .obj (Storage.setItem prev.spread "avatar" data.asText) else prev

/-- `uploadAvatar` (AuthContext.js 106-128): `post` is how the promise of
`api.post('/user/avatar')` settles, `check` how the call inside the following
`checkAuth` settles. A throw in the `try` block is logged and thrown again. -/
def uploadAvatar (json : JsonApi) (post check : Settled) (w : World) :
    World × Completion JsVal :=
  match post with
  | .rejected error => (w, Completion.rejected (JsError.api error))
  | .fulfilled response =>
    let w1 := setUser (mergeAvatar response.data w.auth.user) w
    let checked := checkAuth json check w1
    match checked.2 with
    | .rejected error => (checked.1, Completion.rejected error)
    | .resolved updatedUser =>
      match updatedUser.getProp "avatar" with
      | .error error => (checked.1, Completion.rejected error)
      | .ok avatar => (checked.1, Completion.resolved (jsOr avatar response.data))

/-- An operation of the store other than `checkAuth`, with the outcome of its
remote call. -/
inductive AuthOp where
  | login (outcome : Settled)
  | logout (outcome : Settled)
  | register (outcome : Settled)
  deriving DecidableEq, Repr

/-- The state after an operation. -/
def AuthOp.apply (w : World) : AuthOp → World
  | .login outcome => (CarPortal.login outcome w).1
  | .logout outcome => (CarPortal.logout outcome w).1
  | .register outcome => (CarPortal.register outcome w).1

/-- The state after a sequence of operations. -/
def applyOps (ops : List AuthOp) (w : World) : World :=
  ops.foldl AuthOp.apply w

/-! ## Route guards -/

/-- What a guard component does: show the placeholder, render its children,
assign `window.location.href`, or render `<Navigate to=... replace />` (with the
location state it passes, if any). -/
inductive GuardResult where
  | loading
  | children
  | assignHref (url : String)
  | navigate (target : String) (replace : Bool) (state : Option String)
  deriving DecidableEq, Repr

/-- `PrivateRoute` of App.js 76-86. -/
def App.PrivateRoute (auth : AuthState) : GuardResult :=
  if auth.isLoading then .loading
  else if !auth.isAuthenticated then .assignHref "/login"
  else .children

/-- `PrivateRoute` of routes.js 29-37. -/
def routes.PrivateRoute (auth : AuthState) : GuardResult :=
  if !auth.isAuthenticated then .navigate "/login" true none
  else .children

/-- `user != null`. -/
def JsVal.nonNull : JsVal → Bool
  | .undefined => false
  | .null => false
  | _ => true

/-! ## Role guard, login page, useAuth, menu -/

/-- `user?.[name]`: undefined on undefined and null. -/
def JsVal.optProp (value : JsVal) (name : String) : JsVal :=
  match value.getProp name with
  | .ok found => found
  | .error _ => .undefined

/-- `allowedRoles.includes(user.role)` for a list of role names. -/
def includesRole (allowedRoles : List String) (role : JsVal) : Bool :=
  match role with
  | .str name => allowedRoles.contains name
  | _ => false

/-- `RoleRoute` of App.js 91-100. -/
def App.RoleRoute (allowedRoles : List String) (auth : AuthState) : GuardResult :=
  if auth.isLoading then .loading
  else if !auth.user.truthy || !includesRole allowedRoles (auth.user.optProp "role") then
    .assignHref "/"
  else .children

/-- `RoleRoute` of routes.js 45-53. -/
def routes.RoleRoute (allowedRoles : List String) (auth : AuthState) : GuardResult :=
  if !auth.user.truthy || !includesRole allowedRoles (auth.user.optProp "role") then
    .navigate "/" true none
  else .children

/-- The `location.state?.from?.pathname` the login page finds after a guard
sent the browser there: a document load and a `Navigate` without `state`
leave no location state. -/
def GuardResult.fromPathname : GuardResult → Option String
  | .navigate _ _ state => state
  | _ => none

/-- The target of the redirect of LoginPage.js 42-47 and 107-108:
`location.state?.from?.pathname || '/'`. -/
def LoginPage.redirectTarget (fromPathname : Option String) : String :=
  match fromPathname with
  | some pathname => if (JsVal.str pathname).truthy then pathname else "/"
  | none => "/"

/-- The value held by the auth context: the store state; `initialized` is false
for the default value, whose functions reject with 'Auth not initialized'. -/
structure ContextValue where
  auth : AuthState
  initialized : Bool
  deriving DecidableEq, Repr

/-- What `useContext` can return: a value, or undefined. -/
inductive ContextSlot where
  | undefined
  | value (held : ContextValue)
  deriving DecidableEq, Repr

/-- The default value given to `createContext` (AuthContext.js 10-19). -/
def AuthContext.defaultValue : ContextSlot :=
  .value { auth := { user := .null, isAuthenticated := false, isLoading := true }, initialized := false }

/-- `useContext(AuthContext)`: the value of the nearest provider, the default
value when there is none. -/
def useContext (provider : Option ContextSlot) : ContextSlot :=
  match provider with
  | some slot => slot
  | none => AuthContext.defaultValue

/-- `useAuth` (hooks/useAuth.js 10-16, AuthContext.js 159-165): the error
carries the message of the `Error` thrown. -/
def useAuth (provider : Option ContextSlot) : Except String ContextValue :=
  match useContext provider with
  | .undefined => .error "useAuth must be used within an AuthProvider"
  | .value held => .ok held

/-- An entry of the header menu. -/
structure MenuItem where
  text : String
  path : String
  deriving DecidableEq, Repr

/-- `getMenuItems` of Header.js 83-100. -/
def Header.getMenuItems (auth : AuthState) : List MenuItem :=
  let items : List MenuItem :=
    [{ text := "Каталог", path := "/cars" }, { text := "Новости", path := "/news" },
     { text := "Контакты", path := "/contacts" }]
  if auth.isAuthenticated then
    let items1 := items ++ [{ text := "Избранное", path := "/favorites" }]
    let items2 :=
      if auth.user.optProp "role" = .str "MODERATOR" ∨ auth.user.optProp "role" = .str "ADMIN" then
        items1 ++ [{ text := "Управление новостями", path := "/moderator/news" }]
      else items1
    if auth.user.optProp "role" = .str "ADMIN" then
      items2 ++ [{ text := "Панель администратора", path := "/admin" }]
    else items2
  else items

/-- The flag and the user agree: isAuthenticated is true exactly when user is
non-null. -/
def AuthState.Consistent (auth : AuthState) : Prop :=
  auth.isAuthenticated = true ↔ auth.user.nonNull = true

/-! ## api.safeGet -/

/-- The config of `api.get(url, config)`. -/
def getConfig (url : String) (config : Config) : Config :=
  { config with url := url, method := "get" }

/-- `api.safeGet` (api.js 152-172): the completion of its promise and the
calls of `api.get` it makes, given how the promises of the first GET, of the
check-session call and of the retry settle. -/
def safeGet (url : String) (config : Config) (first check retry : Settled) :
    Completion JsVal × List Config :=
  match first with
  | .fulfilled response => (Completion.resolved response.data, [getConfig url config])
  | .rejected error =>
    if error.status = some 401 then
      match check with
      | .rejected _ =>
        (Completion.rejected (JsError.api error), [getConfig url config, checkLoginConfig])
      | .fulfilled _ =>
        match retry with
        | .fulfilled retryResponse =>
          (Completion.resolved retryResponse.data,
            [getConfig url config, checkLoginConfig, getConfig url config])
        | .rejected _ =>
          (Completion.rejected (JsError.api error),
            [getConfig url config, checkLoginConfig, getConfig url config])
    else (Completion.rejected (JsError.api error), [getConfig url config])

/-! ## CarCatalog.js -/

/-- A car of the catalog. Its price is a finite JavaScript number (a JSON body
carries neither NaN nor Infinity): the rational the double stands for. -/
structure Car where
  id : Nat
  brand : String
  model : String
  description : Option String
  price : ℚ
  deriving DecidableEq, Repr

/-- The filter record (CarCatalog.js 33-38): the texts of the inputs. -/
structure Filters where
  brand : String
  minPrice : String
  maxPrice : String
  search : String
  deriving DecidableEq, Repr

/-- The pagination record (CarCatalog.js 39-43). -/
structure Pagination where
  page : Nat
  totalPages : Nat
  itemsPerPage : Nat
  deriving DecidableEq, Repr

/-- The state of the catalog page the filters work on. -/
structure CatalogState where
  cars : List Car
  originalCars : List Car
  filters : Filters
  pagination : Pagination
  deriving DecidableEq, Repr

/-- A JavaScript number. A finite double is the rational it stands for, so
fractional prices and bounds such as 9999.5 have a value, and the comparisons of
finite doubles are the order of the rationals. -/
inductive JsNumber where
  | nan
  | negInfinity
  | finite (value : ℚ)
  | infinity
  deriving DecidableEq, Repr

/-- The built-ins `String.prototype.toLowerCase`, `String.prototype.trim` and
`parseFloat`. -/
structure JsBuiltins where
  toLowerCase : String → String
  trim : String → String
  parseFloat : String → JsNumber

/-- The operator `a >= b` on numbers. -/
def JsNumber.ge (a b : JsNumber) : Bool :=
  match a, b with
  | .nan, _ => false
  | _, .nan => false
  | .infinity, _ => true
  | _, .negInfinity => true
  | .finite x, .finite y => decide (y ≤ x)
  | .finite _, .infinity => false
  | .negInfinity, _ => false

/-- The operator `a <= b` on numbers. -/
def JsNumber.le (a b : JsNumber) : Bool :=
  match a, b with
  | .nan, _ => false
  | _, .nan => false
  | .negInfinity, _ => true
  | _, .infinity => true
  | .finite x, .finite y => decide (x ≤ y)
  | .finite _, .negInfinity => false
  | .infinity, _ => false

/-- The callback of the search filter (CarCatalog.js 117-121). -/
def searchMatches (js : JsBuiltins) (searchTerm : String) (car : Car) : Bool :=
  jsIncludes (js.toLowerCase car.brand) searchTerm ||
  jsIncludes (js.toLowerCase car.model) searchTerm ||
  (match car.description with
    | some text => (JsVal.str text).truthy && jsIncludes (js.toLowerCase text) searchTerm
    | none => false)

/-- `Math.ceil(length / itemsPerPage)` for a positive page size. -/
def ceilDiv (length itemsPerPage : Nat) : Nat :=
  (length + itemsPerPage - 1) / itemsPerPage

/-- The filtering part of `applyFilters` (CarCatalog.js 112-135). -/
def filterCars (js : JsBuiltins) (filters : Filters) (originalCars : List Car) : List Car :=
  let filtered0 := originalCars
  let filtered1 :=
    if (JsVal.str (js.trim filters.search)).truthy then
      filtered0.filter (searchMatches js (js.trim (js.toLowerCase filters.search)))
    else filtered0
  let filtered2 :=
    if (JsVal.str filters.brand).truthy then
      filtered1.filter (fun car => car.brand == filters.brand)
    else filtered1
  if (JsVal.str filters.minPrice).truthy || (JsVal.str filters.maxPrice).truthy then
    let minPrice :=
      if (JsVal.str filters.minPrice).truthy then js.parseFloat filters.minPrice
      else JsNumber.finite 0
    let maxPrice :=
      if (JsVal.str filters.maxPrice).truthy then js.parseFloat filters.maxPrice
      else JsNumber.infinity
    filtered2.filter (fun car =>
      JsNumber.ge (JsNumber.finite car.price) minPrice &&
      JsNumber.le (JsNumber.finite car.price) maxPrice)
  else filtered2

/-- `applyFilters` (CarCatalog.js 111-142). -/
def applyFilters (js : JsBuiltins) (s : CatalogState) : CatalogState :=
  let filteredCars := filterCars js s.filters s.originalCars
  { s with
    cars := filteredCars
    pagination :=
      { s.pagination with totalPages := ceilDiv filteredCars.length s.pagination.itemsPerPage } }

/-! ### The filters in the words of the specification -/

/-- The text `term` is contained in `text`: some text before it and some text
after it make up `text`. -/
def Contains (text term : String) : Prop :=
  ∃ before after : String, text = before ++ term ++ after

/-- The order of the numbers: two finite numbers are ordered as rationals,
-Infinity is below and Infinity above every number, NaN is compared with
nothing. -/
def JsNumber.AtMost : JsNumber → JsNumber → Prop
  | .finite x, .finite y => x ≤ y
  | .negInfinity, .negInfinity => True
  | .negInfinity, .finite _ => True
  | .negInfinity, .infinity => True
  | .finite _, .infinity => True
  | .infinity, .infinity => True
  | _, _ => False

/-- The lower price bound: 0 when the field is empty. -/
def Filters.lowerBound (js : JsBuiltins) (filters : Filters) : JsNumber :=
  if filters.minPrice = "" then JsNumber.finite 0 else js.parseFloat filters.minPrice

/-- The upper price bound: none (Infinity) when the field is empty. -/
def Filters.upperBound (js : JsBuiltins) (filters : Filters) : JsNumber :=
  if filters.maxPrice = "" then JsNumber.infinity else js.parseFloat filters.maxPrice

/-- A car satisfies all active filters. The search filter is active when the
trimmed search text is not empty: the search term, trimmed and in lower case,
is contained in the brand, the model or the description taken in lower case.
The brand filter is active when a brand is selected: the brand of the car is
that brand. The price filter is active when a bound is given: the price lies
between the lower and the upper bound. -/
def satisfiesFilters (js : JsBuiltins) (filters : Filters) (car : Car) : Prop :=
  (js.trim filters.search ≠ "" →
    Contains (js.toLowerCase car.brand) (js.trim (js.toLowerCase filters.search)) ∨
    Contains (js.toLowerCase car.model) (js.trim (js.toLowerCase filters.search)) ∨
    ∃ text, car.description = some text ∧
      Contains (js.toLowerCase text) (js.trim (js.toLowerCase filters.search))) ∧
  (filters.brand ≠ "" → car.brand = filters.brand) ∧
  (filters.minPrice ≠ "" ∨ filters.maxPrice ≠ "" →
    (filters.lowerBound js).AtMost (JsNumber.finite car.price) ∧
    (JsNumber.finite car.price).AtMost (filters.upperBound js))

/-! ## The news sort comparator -/

/-- A news item as the comparator sees it: its `date` text, if it has one. -/
structure NewsItem where
  id : Nat
  date : Option String
  deriving DecidableEq, Repr

/-- The text of element `index` of `parts` in a template literal. -/
def partText (parts : List String) (index : Nat) : String :=
  parts.getD index "undefined"

/-- `parseDateForSorting` (NewsManagement.js 121-130): the time value of the
date, none for an invalid date. `dateParse` is `new Date(text).getTime()`. -/
def parseDateForSorting (dateParse : String → Option Int) (dateStr : Option String) :
    Option Int :=
  match dateStr with
  | none => some 0
  | some text =>
    if !(JsVal.str text).truthy then some 0
    else if jsIncludes text "." then
      let parts := text.splitOn "."
      dateParse (partText parts 2 ++ "-" ++ partText parts 1 ++ "-" ++ partText parts 0)
    else dateParse text

/-- The comparator passed to `sort` in NewsManagement.js 119-143. Its `catch`
branch (return 0) is reached only when `date` is not a text, which the type of
the items excludes. -/
def newsComparator (dateParse : String → Option Int) (a b : NewsItem) : Int :=
  match parseDateForSorting dateParse a.date, parseDateForSorting dateParse b.date with
  | none, _ => 1
  | some _, none => -1
  | some dateA, some dateB => dateB - dateA

/-! ## Vocabulary of the statements -/

/-- What a request that does not enter the refresh branch is rejected with
(api.js 100-113). -/
def passedOn (error : ApiError) : ApiError :=
  if error.data.truthy then normalize error else error

/-- The configs of the calls sent, in order. -/
def sentConfigs (log : List Effect) : List Config :=
  log.filterMap (fun e => match e with
    | .sent _ config => some config
    | .settled _ _ => none)

/-- The promises of outside callers that settled, in order. -/
def settlements (log : List Effect) : List (Nat × Settled) :=
  log.filterMap (fun e => match e with
    | .sent _ _ => none
    | .settled k result => some (k, result))

/-- The outside caller at the end of a chain of continuations. -/
def Kont.root : Kont → Nat
  | .caller k => k
  | .afterCheck _ next => next.root
  | .afterRetry next => next.root

/-- A reply that is a failure with status 401. -/
def Reply.is401 : Reply → Bool
  | .failure (some response) _ _ => response.status == 401
  | _ => false

/-- The error the interceptor sees for `reply` to `call` (for a success, none). -/
def errorOf (call : Call) : Reply → Option ApiError
  | .success _ => none
  | .failure response message code => some (mkError call response message code)

/-- Between two tasks: no job is waiting, calls in flight have distinct ids
below `nextId`. -/
def World.Wf (w : World) : Prop :=
  w.jobs = [] ∧ (w.inflight.map Call.id).Nodup ∧ ∀ c ∈ w.inflight, c.id < w.nextId

instance (w : World) : Decidable w.Wf := by
  unfold World.Wf
  infer_instance

/-- The queue entry made for a call that fails while a refresh is running. -/
def pendingOf (x : Call × Reply) : Pending :=
  { originalRequest := x.1.config, next := x.1.kont }

/-- The event of a burst: the reply to a call arrives. -/
def replyEvent (x : Call × Reply) : Event :=
  Event.reply x.1.id x.2

/-- The persisted session is gone: no `auth_token` cookie, no `user` and no
`auth_checked` entry in localStorage, sessionStorage empty. -/
def SessionWiped (w : World) : Prop :=
  w.cookies.getItem "auth_token" = none ∧ w.localStorage.getItem "user" = none ∧
    w.localStorage.getItem "auth_checked" = none ∧ w.sessionStorage = []

/-- The value of `window.location.href` after the test of api.js 87-90 on page
`pathname`, `href` being its value before. -/
def loginRedirect (pathname : String) (href : Option String) : Option String :=
  if jsIncludes pathname "/login" = false ∧ jsIncludes pathname "/register" = false then
    some "/login"
  else
    href

/-- The client after a failed refresh: persisted session wiped, store `auth`
as before, page `pathname`, navigation `href`, coordinator idle with an empty
queue. -/
def Cleared (auth : AuthState) (pathname : String) (href : Option String) (w : World) : Prop :=
  SessionWiped w ∧ w.auth = auth ∧ w.pathname = pathname ∧ w.href = href ∧
    w.isRefreshing = false ∧ w.failedQueue = []

/-- The states a client passes through while one request `config` of caller `k`
is outstanding and nothing else is: the request is in flight; the check-session
call is in flight; the retry is in flight; nothing is in flight any more.
`before` lists the configs sent before the request. -/
def LoneShape (k : Nat) (config : Config) (before : List Config) (w : World) : Prop :=
  (w.jobs = [] ∧ w.failedQueue = [] ∧ w.isRefreshing = false ∧
    (∃ i, w.inflight = [Call.mk i config (Kont.caller k)]) ∧
    sentConfigs w.log = before ++ [config]) ∨
  (w.jobs = [] ∧ w.failedQueue = [] ∧ w.isRefreshing = true ∧
    (∃ i, w.inflight = [Call.mk i checkLoginConfig (Kont.afterCheck config (Kont.caller k))]) ∧
    sentConfigs w.log = before ++ [config, checkLoginConfig]) ∨
  (w.jobs = [] ∧ w.failedQueue = [] ∧ w.isRefreshing = true ∧
    (∃ i, w.inflight = [Call.mk i config (Kont.afterRetry (Kont.caller k))]) ∧
    sentConfigs w.log = before ++ [config, checkLoginConfig, config]) ∨
  (w.inflight = [] ∧
    ∃ tail, sentConfigs w.log = before ++ tail ∧ tail <+: [config, checkLoginConfig, config])

/-- The check-session call a refresh started by `first` sends from `w`. -/
def checkCall (w : World) (first : Call × Reply) : Call :=
  { id := w.nextId, config := checkLoginConfig,
    kont := Kont.afterCheck first.1.config first.1.kont }

/-! ## Sample data -/

/-- A GET request of outside code. -/
def sampleGet (url : String) : Config :=
  { url := url, method := "get", headers := [], data := .undefined }

/-- An error response with the given status and a text body. -/
def sampleDenied (status : Nat) : Response :=
  { status := status, data := .str "denied", headers := [], statusText := none }

/-- A reply with the given status and a text body. -/
def sampleFailure (status : Nat) : Reply :=
  Reply.failure (some (sampleDenied status)) "Request failed" (some "ERR_BAD_REQUEST")

/-- The error of a call of `config` answered with `status`. -/
def sampleError (config : Config) (status : Nat) : ApiError :=
  mkError { id := 0, config := config, kont := Kont.caller 1 } (some (sampleDenied status))
    "Request failed" (some "ERR_BAD_REQUEST")

/-- A session as the backend returns it. -/
def sampleSession : JsVal :=
  .obj [("username", "anna"), ("role", "USER")]

/-- A 200 response carrying a session. -/
def sampleOk : Response :=
  { status := 200, data := sampleSession, headers := [], statusText := some "OK" }

/-- A successful reply carrying a session. -/
def sampleSuccess : Reply :=
  Reply.success sampleOk

/-- The check-session call `2` is answered with a session. -/
def sampleCheckOk : Event :=
  Event.reply 2 sampleSuccess

/-- A logged-in client on the catalog page, nothing in flight. -/
def sampleStart : World :=
  World.initial "/cars" [("auth_token", "t0")] [("user", "anna"), ("theme", "dark")]
    [("draft", "1")] { user := sampleSession, isAuthenticated := true, isLoading := false }

/-- The same client on the login page. -/
def sampleOnLogin : World :=
  World.initial "/login" [("auth_token", "t0")] [("user", "anna"), ("theme", "dark")]
    [("draft", "1")] { user := sampleSession, isAuthenticated := true, isLoading := false }

/-- The session after the backend changed the role. -/
def sampleRenewed : Response :=
  { status := 200, data := .obj [("username", "anna"), ("role", "ADMIN")], headers := [],
    statusText := some "OK" }

/-- The status a settled promise was rejected with. -/
def rejectedStatus : Settled → Option Nat
  | .fulfilled _ => none
  | .rejected error => error.status

/-- Callers 1 and 2 fail with 401, the check-session call succeeds, the retry
of caller 2 answers 401 while the retry of caller 1 is still in flight, then
the retry of caller 1 succeeds. -/
def lateQueueRun : List Event :=
  [Event.request 1 (sampleGet "/favorites"), Event.request 2 (sampleGet "/profile"),
    Event.reply 0 (sampleFailure 401), Event.reply 1 (sampleFailure 401),
    Event.reply 2 sampleSuccess, Event.reply 4 (sampleFailure 401), Event.reply 3 sampleSuccess]

/-- Caller 1 fails with 401, the check-session call succeeds, the retried
request is answered 403. -/
def retryForbiddenRun : List Event :=
  [Event.request 1 (sampleGet "/favorites"), Event.reply 0 (sampleFailure 401),
    Event.reply 1 sampleSuccess, Event.reply 2 (sampleFailure 403)]

/-- Caller 1 fails with 401 and the check-session call fails too. -/
def refreshFailsRun : List Event :=
  [Event.request 1 (sampleGet "/favorites"), Event.reply 0 (sampleFailure 401),
    Event.reply 1 (sampleFailure 401)]

/-- Caller 1 fails with 401 and the check-session call returns a new session. -/
def refreshRenewsRun : List Event :=
  [Event.request 1 (sampleGet "/favorites"), Event.reply 0 (sampleFailure 401),
    Event.reply 1 (Reply.success sampleRenewed)]

/-- Callers 1 and 2 fail with 401, the check-session call succeeds, the retry
of caller 1 succeeds, then the retry of caller 2 answers 401 and the second
check-session call succeeds as well. -/
def secondRefreshRun : List Event :=
  [Event.request 1 (sampleGet "/favorites"), Event.request 2 (sampleGet "/profile"),
    Event.reply 0 (sampleFailure 401), Event.reply 1 (sampleFailure 401),
    Event.reply 2 sampleSuccess, Event.reply 3 sampleSuccess, Event.reply 4 (sampleFailure 401),
    Event.reply 5 sampleSuccess]

/-- Callers 1 and 2 have sent `/favorites` and `/profile`. -/
def sampleTwoCalls : World :=
  run [Event.request 1 (sampleGet "/favorites"), Event.request 2 (sampleGet "/profile")] sampleStart

/-- The call of caller 1. -/
def sampleCall1 : Call :=
  { id := 0, config := sampleGet "/favorites", kont := Kont.caller 1 }

/-- The call of caller 2. -/
def sampleCall2 : Call :=
  { id := 1, config := sampleGet "/profile", kont := Kont.caller 2 }

/-- The double quote. -/
def quoteMark : String :=
  String.singleton (Char.ofNat 34)

/-- A text in double quotes. -/
def quoted (text : String) : String :=
  quoteMark ++ text ++ quoteMark

/-- A serialization for the sample values. -/
def sampleStringify : JsVal → String
  | .undefined => "undefined"
  | .null => "null"
  | .bool b => if b then "true" else "false"
  | .num n => toString n
  | .str s => quoted s
  | .obj fields =>
    "\x7b" ++ ",".intercalate (fields.map (fun kv => quoted kv.1 ++ ":" ++ quoted kv.2)) ++ "\x7d"

/-- A parser that knows the serialized sample session and `null`, and rejects
every other text. -/
def sampleParse (text : String) : Option JsVal :=
  if text = sampleStringify sampleSession then some sampleSession
  else if text = "null" then some .null
  else none

/-- The JSON built-ins used in the examples. -/
def sampleJson : JsonApi :=
  { parse := sampleParse, stringify := sampleStringify }

/-- A 200 response with the body `null`. -/
def sampleNullBody : Response :=
  { status := 200, data := .null, headers := [], statusText := some "OK" }

/-- A 200 response whose body is a text, not a session object. -/
def sampleTextBody : Response :=
  { status := 200, data := .str "maintenance", headers := [], statusText := some "OK" }

/-- A 200 response carrying an avatar reference. -/
def sampleAvatar : Response :=
  { status := 200, data := .str "/uploads/anna.png", headers := [], statusText := some "OK" }

/-- A 200 response without a body, as `/user/logout` answers. -/
def sampleEmptyOk : Response :=
  { status := 200, data := .str "", headers := [], statusText := some "OK" }

/-- The error of a call that got no response. -/
def sampleNetworkError : ApiError :=
  mkError (Call.mk 0 (sampleGet "/user/logout") (Kont.caller 1)) none "Network Error" none

/-- A client whose persisted slot holds the empty text. -/
def sampleEmptySlot : World :=
  World.initial "/" [] [("user", "")] [] AuthState.initial

/-- A client whose persisted slot holds a text that is not JSON. -/
def sampleBadSlot : World :=
  World.initial "/" [] [("user", "anna")] [] AuthState.initial

/-- A request config with headers of its own. -/
def samplePost : Config :=
  { url := "/user/edit", method := "post", headers := [("Accept", "application/json")], data := sampleSession }

/-- A loaded store without a session. -/
def sampleAnonymous : AuthState :=
  { user := .null, isAuthenticated := false, isLoading := false }

/-- A loaded store holding a session with the given role. -/
def sampleMember (role : String) : AuthState :=
  { user := .obj [("username", "anna"), ("role", role)], isAuthenticated := true, isLoading := false }

/-- A store that is still loading, without a session. -/
def sampleLoading : AuthState :=
  { user := .null, isAuthenticated := false, isLoading := true }

/-- Caller 1 fails with 401, the check-session call succeeds, the retried
request answers 401 again. -/
def retryDeniedRun : List Event :=
  [Event.request 1 (sampleGet "/favorites"), Event.reply 0 (sampleFailure 401),
    Event.reply 1 sampleSuccess, Event.reply 2 (sampleFailure 401)]

/-- After `retryDeniedRun`, caller 2 sends a request that answers 401. -/
def afterDeadlockRun : List Event :=
  retryDeniedRun ++ [Event.request 2 (sampleGet "/profile"), Event.reply 3 (sampleFailure 401)]

/-- A client whose persisted slot holds the text `null`. -/
def sampleNullSlot : World :=
  World.initial "/" [] [("user", "null")] [] AuthState.initial

/-- The error of a GET answered with `status`. -/
def sampleGetError (status : Nat) : ApiError :=
  sampleError (sampleGet "/cars/catalog") status

/-- Lower case of the ASCII letters. -/
def sampleLower (text : String) : String :=
  String.mk (text.data.map Char.toLower)

/-- Removal of leading and trailing blanks. -/
def sampleTrim (text : String) : String :=
  String.mk ((text.data.dropWhile (fun c => c == ' ')).reverse.dropWhile (fun c => c == ' ')).reverse

/-- A number reader that knows the texts `9999.5` and `15000`. -/
def sampleParseFloat (text : String) : JsNumber :=
  if text = "9999.5" then .finite (mkRat 19999 2)
  else if text = "15000" then .finite 15000
  else .nan

/-- The built-ins used in the examples. -/
def sampleBuiltins : JsBuiltins :=
  { toLowerCase := sampleLower, trim := sampleTrim, parseFloat := sampleParseFloat }

/-- Five cars; the Largus costs 15000.5 and the Patriot 9999.5. -/
def sampleCars : List Car :=
  [{ id := 1, brand := "Lada", model := "Vesta", description := some "sedan", price := 12000 },
   { id := 2, brand := "Kia", model := "Rio", description := none, price := 14000 },
   { id := 3, brand := "Lada", model := "Niva", description := some "", price := 9999 },
   { id := 4, brand := "Lada", model := "Largus", description := some "wagon", price := mkRat 30001 2 },
   { id := 5, brand := "UAZ", model := "Patriot", description := some "like a Lada", price := mkRat 19999 2 }]

/-- A catalog with the search `LADA ` and both price bounds, the lower one
fractional. -/
def sampleCatalog : CatalogState :=
  { cars := sampleCars, originalCars := sampleCars,
    filters := { brand := "", minPrice := "9999.5", maxPrice := "15000", search := "LADA " },
    pagination := { page := 1, totalPages := 1, itemsPerPage := 9 } }

/-- A date reader that knows two ISO dates and rejects every other text. -/
def sampleDateParse (text : String) : Option Int :=
  if text = "2024-03-01" then some 1709251200000
  else if text = "2024-05-01" then some 1714521600000
  else none

/-- A news item whose date is not a date. -/
def sampleUndated (id : Nat) (text : String) : NewsItem :=
  { id := id, date := some text }

/-- Callers 1 and 2 have requests in flight. The request of caller 1 answers
401 and the check-session call succeeds; only then the request of caller 2
answers 401, while the retry of caller 1 is in flight; that retry is answered
500. -/
def lateFailureRetryFailsRun : List Event :=
  [Event.request 1 (sampleGet "/favorites"), Event.request 2 (sampleGet "/profile"),
    Event.reply 0 (sampleFailure 401), Event.reply 2 sampleSuccess,
    Event.reply 1 (sampleFailure 401), Event.reply 3 (sampleFailure 500)]

/-- The same run, the retry of caller 1 succeeding. -/
def lateFailureRetrySucceedsRun : List Event :=
  [Event.request 1 (sampleGet "/favorites"), Event.request 2 (sampleGet "/profile"),
    Event.reply 0 (sampleFailure 401), Event.reply 2 sampleSuccess,
    Event.reply 1 (sampleFailure 401), Event.reply 3 sampleSuccess]

/-! ## The job loop -/

theorem Kont.depth_pos (kont : Kont) : 0 < kont.depth := by
  cases kont <;> simp [Kont.depth]

theorem Job.weight_pos (job : Job) : 0 < job.weight := by
  cases job with
  | settle kont result => exact Kont.depth_pos kont
  | replay prom token => simp [Job.weight]

theorem drain_nil (fuel : Nat) (w : World) (h : w.jobs = []) : drain fuel w = w := by
  cases fuel with
  | zero => rfl
  | succ n => simp [drain, h]

theorem drain_cons (fuel : Nat) (w : World) (job : Job) (rest : List Job)
    (h : w.jobs = job :: rest) :
    drain (fuel + 1) w = drain fuel (runJob job { w with jobs := rest }) := by
  simp [drain, h]

theorem sum_depth_le (q : List Pending) :
    (q.map (fun prom => prom.next.depth)).sum ≤ (q.map (fun prom => prom.next.depth + 1)).sum := by
  induction q with
  | nil => simp
  | cons p ps ih => simp only [List.map_cons, List.sum_cons]; omega

theorem sum_one_le (q : List Pending) :
    q.length ≤ (q.map (fun prom => prom.next.depth + 1)).sum := by
  induction q with
  | nil => simp
  | cons p ps ih => simp only [List.map_cons, List.sum_cons, List.length_cons]; omega

theorem processQueue_weight (error : Option ApiError) (token : JsVal) (w : World) :
    (processQueue error token w).weight ≤ w.weight := by
  have h1 := sum_depth_le w.failedQueue
  have h2 := sum_one_le w.failedQueue
  cases error with
  | none =>
    simp only [processQueue, World.weight, List.map_append, List.sum_append, List.map_map,
      List.map_nil, List.sum_nil]
    have : (List.map (Job.weight ∘ fun prom => Job.replay prom token) w.failedQueue).sum
        = w.failedQueue.length := by
      simp [Function.comp_def, Job.weight]
    omega
  | some e =>
    simp only [processQueue, World.weight, List.map_append, List.sum_append, List.map_map,
      List.map_nil, List.sum_nil]
    have : (List.map (Job.weight ∘ fun prom => Job.settle prom.next (Settled.rejected e))
        w.failedQueue).sum = (w.failedQueue.map (fun prom => prom.next.depth)).sum := by
      simp [Function.comp_def, Job.weight]
    omega

theorem api_weight (config : Config) (kont : Kont) (w : World) :
    (api config kont w).weight = w.weight := rfl

theorem refreshCatch_weight (e : ApiError) (w : World) :
    (refreshCatch e w).weight ≤ w.weight := by
  have h := processQueue_weight (some e) .null w
  unfold refreshCatch
  simp only
  split <;> exact h

theorem settle_weight (kont : Kont) (result : Settled) (w : World) :
    (settle kont result w).weight = w.weight + kont.depth := by
  simp [settle, World.weight, Job.weight]
  omega

theorem refreshFinally_weight (next : Kont) (result : Settled) (w : World) :
    (refreshFinally next result w).weight = w.weight + next.depth := by
  simp [refreshFinally, settle, World.weight, Job.weight]
  omega

theorem runJob_weight (job : Job) (rest : List Job) (w : World) :
    (runJob job { w with jobs := rest }).weight < ({ w with jobs := job :: rest } : World).weight := by
  have hw : ({ w with jobs := job :: rest } : World).weight
      = job.weight + ({ w with jobs := rest } : World).weight := by
    simp [World.weight]; omega
  rw [hw]
  cases job with
  | replay prom token =>
    simp only [runJob, api_weight, Job.weight]
    omega
  | settle kont result =>
    cases kont with
    | caller k =>
      simp only [runJob, Job.weight, Kont.depth]
      show ({ w with jobs := rest } : World).weight < _
      omega
    | afterCheck orig next =>
      cases result with
      | fulfilled response =>
        simp only [runJob, refreshThen, api_weight, Job.weight, Kont.depth]
        have := processQueue_weight none response.data { w with jobs := rest }
        have := Kont.depth_pos next
        omega
      | rejected e =>
        simp only [runJob, refreshFinally_weight, Job.weight, Kont.depth]
        have := refreshCatch_weight e { w with jobs := rest }
        omega
    | afterRetry next =>
      cases result with
      | fulfilled response =>
        simp only [runJob, refreshFinally_weight, Job.weight, Kont.depth]
        omega
      | rejected e =>
        simp only [runJob, refreshFinally_weight, Job.weight, Kont.depth]
        have := refreshCatch_weight e { w with jobs := rest }
        omega

theorem weight_zero_jobs (w : World) (h : w.weight = 0) : w.jobs = [] := by
  cases hj : w.jobs with
  | nil => rfl
  | cons job rest =>
    have := Job.weight_pos job
    simp [World.weight, hj] at h
    omega

theorem drain_fuel (n : Nat) : ∀ (w : World) (m : Nat), w.weight ≤ n → w.weight ≤ m →
    drain n w = drain m w := by
  induction n with
  | zero =>
    intro w m hn _
    have hj := weight_zero_jobs w (by omega)
    rw [drain_nil _ _ hj, drain_nil _ _ hj]
  | succ n ih =>
    intro w m hn hm
    cases hj : w.jobs with
    | nil => rw [drain_nil _ _ hj, drain_nil _ _ hj]
    | cons job rest =>
      have hlt := runJob_weight job rest w
      have hw : ({ w with jobs := job :: rest } : World) = w := by rw [← hj]
      rw [hw] at hlt
      cases m with
      | zero => omega
      | succ m =>
        rw [drain_cons n w job rest hj, drain_cons m w job rest hj]
        exact ih _ m (by omega) (by omega)

theorem flush_nil (w : World) (h : w.jobs = []) : flush w = w :=
  drain_nil _ w h

theorem flush_cons (w : World) (job : Job) (rest : List Job) (h : w.jobs = job :: rest) :
    flush w = flush (runJob job { w with jobs := rest }) := by
  have hlt := runJob_weight job rest w
  have hw : ({ w with jobs := job :: rest } : World) = w := by rw [← h]
  rw [hw] at hlt
  unfold flush
  obtain ⟨m, hm⟩ : ∃ m, w.weight = m + 1 := ⟨w.weight - 1, by omega⟩
  rw [hm, drain_cons m w job rest h]
  exact drain_fuel m _ _ (by omega) (le_refl _)

theorem flush_jobs (w : World) : (flush w).jobs = [] := by
  generalize hn : w.weight = n
  induction n using Nat.strong_induction_on generalizing w with
  | _ n ih =>
    cases hj : w.jobs with
    | nil => rw [flush_nil w hj]; exact hj
    | cons job rest =>
      rw [flush_cons w job rest hj]
      have hlt := runJob_weight job rest w
      have hw : ({ w with jobs := job :: rest } : World) = w := by rw [← hj]
      rw [hw] at hlt
      exact ih _ (by omega) _ rfl

/-! ## The rejection handler on one failure -/

theorem normalize_status (error : ApiError) : (normalize error).status = error.status := by
  cases error with
  | mk response config request message code isAxiosError =>
    cases response <;> rfl

theorem normalize_data (error : ApiError) : (normalize error).data = error.data := by
  cases error with
  | mk response config request message code isAxiosError =>
    cases response <;> rfl

theorem onRejected_passes (kont : Kont) (error : ApiError) (w : World)
    (h : ¬ (error.status = some 401 ∧ jsIncludes error.config.url checkLoginPath = false)) :
    onRejected kont error w = settle kont (Settled.rejected (passedOn error)) w := by
  unfold onRejected passedOn
  simp only [if_neg h]
  split <;> rfl

theorem onRejected_queues (kont : Kont) (error : ApiError) (w : World)
    (h401 : error.status = some 401) (hurl : jsIncludes error.config.url checkLoginPath = false)
    (hr : w.isRefreshing = true) :
    onRejected kont error w =
      { w with failedQueue := w.failedQueue ++ [{ originalRequest := error.config, next := kont }] } := by
  unfold onRejected
  simp [h401, hurl, hr]

theorem onRejected_refreshes (kont : Kont) (error : ApiError) (w : World)
    (h401 : error.status = some 401) (hurl : jsIncludes error.config.url checkLoginPath = false)
    (hr : w.isRefreshing = false) :
    onRejected kont error w =
      api checkLoginConfig (Kont.afterCheck error.config kont) { w with isRefreshing := true } := by
  unfold onRejected
  simp [h401, hurl, hr]

/-- C8: a 401 on a request addressed to the check-session endpoint (its url
contains '/user/checklogin', the test of api.js 58) does not set isRefreshing,
does not touch failedQueue, sends nothing and is rejected at once; a 401 on a
request not addressed to it, while isRefreshing is false, sets isRefreshing and
sends the one check-session call. -/
theorem checklogin_failure_never_refreshes (kont : Kont) (error : ApiError) (w : World) :
    (error.status = some 401 → jsIncludes error.config.url checkLoginPath = true →
      (onRejected kont error w).isRefreshing = w.isRefreshing ∧
      (onRejected kont error w).failedQueue = w.failedQueue ∧
      (onRejected kont error w).log = w.log ∧
      (onRejected kont error w).inflight = w.inflight ∧
      (onRejected kont error w).jobs =
        w.jobs ++ [Job.settle kont (Settled.rejected (passedOn error))]) ∧
    (error.status = some 401 → jsIncludes error.config.url checkLoginPath = false →
      w.isRefreshing = false →
      (onRejected kont error w).isRefreshing = true ∧
      (onRejected kont error w).failedQueue = w.failedQueue ∧
      (onRejected kont error w).log = w.log ++ [Effect.sent w.nextId checkLoginConfig] ∧
      (onRejected kont error w).inflight = w.inflight ++
        [{ id := w.nextId, config := checkLoginConfig,
           kont := Kont.afterCheck error.config kont }]) := by
  refine ⟨fun _ hurl => ?_, fun h401 hurl hr => ?_⟩
  · rw [onRejected_passes kont error w (by simp [hurl])]
    simp [settle]
  · rw [onRejected_refreshes kont error w h401 hurl hr]
    simp [api]

theorem checklogin_failure_never_refreshes_witness :
    (onRejected (Kont.caller 1) (sampleError checkLoginConfig 401) sampleStart).isRefreshing
        = false ∧
      (onRejected (Kont.caller 1) (sampleError checkLoginConfig 401) sampleStart).log = [] ∧
      (onRejected (Kont.caller 1) (sampleError (sampleGet "/favorites") 401)
        sampleStart).isRefreshing = true :=
  ⟨((checklogin_failure_never_refreshes (Kont.caller 1) (sampleError checkLoginConfig 401)
      sampleStart).1 (by decide) (by decide)).1,
    ((checklogin_failure_never_refreshes (Kont.caller 1) (sampleError checkLoginConfig 401)
      sampleStart).1 (by decide) (by decide)).2.2.1,
    ((checklogin_failure_never_refreshes (Kont.caller 1) (sampleError (sampleGet "/favorites") 401)
      sampleStart).2 (by decide) (by decide) (by decide)).1⟩

/-- C10: a failure whose status is not 401 sends nothing, leaves isRefreshing and
failedQueue as they are, and is rejected with an error of the same status, body
and message; without a response body it is rejected with the original error. -/
theorem non401_failure_is_terminal (kont : Kont) (error : ApiError) (w : World)
    (h : error.status ≠ some 401) :
    (onRejected kont error w).log = w.log ∧
    (onRejected kont error w).inflight = w.inflight ∧
    (onRejected kont error w).isRefreshing = w.isRefreshing ∧
    (onRejected kont error w).failedQueue = w.failedQueue ∧
    (onRejected kont error w).jobs =
      w.jobs ++ [Job.settle kont (Settled.rejected (passedOn error))] ∧
    (passedOn error).status = error.status ∧
    (passedOn error).data = error.data ∧
    (passedOn error).message = error.message ∧
    (error.data.truthy = false → passedOn error = error) := by
  rw [onRejected_passes kont error w (fun hc => h hc.1)]
  refine ⟨rfl, rfl, rfl, rfl, rfl, ?_, ?_, ?_, ?_⟩
  · unfold passedOn
    split
    · exact normalize_status error
    · rfl
  · unfold passedOn
    split
    · exact normalize_data error
    · rfl
  · unfold passedOn
    split <;> rfl
  · intro hd
    simp [passedOn, hd]

theorem non401_failure_is_terminal_witness :
    (onRejected (Kont.caller 1) (sampleError (sampleGet "/favorites") 403) sampleStart).log = [] ∧
      (onRejected (Kont.caller 1) (sampleError (sampleGet "/favorites") 403)
        sampleStart).isRefreshing = false ∧
      (passedOn (sampleError (sampleGet "/favorites") 403)).status = some 403 :=
  have h := non401_failure_is_terminal (Kont.caller 1) (sampleError (sampleGet "/favorites") 403)
    sampleStart (by decide)
  ⟨h.1, h.2.2.1, h.2.2.2.2.2.1⟩

/-! ## Bursts of 401 failures -/

theorem find_of_mem (l : List Call) (c : Call) (hn : (l.map Call.id).Nodup) (hc : c ∈ l) :
    l.find? (fun d => d.id == c.id) = some c := by
  induction l with
  | nil => simp at hc
  | cons d ds ih =>
    simp only [List.map_cons, List.nodup_cons] at hn
    rcases List.mem_cons.mp hc with rfl | hmem
    · simp
    · have hne : d.id ≠ c.id := by
        intro h
        exact hn.1 (h ▸ List.mem_map_of_mem Call.id hmem)
      simp [List.find?_cons, hne, ih hn.2 hmem]

theorem deliver_eq (w : World) (c : Call) (reply : Reply)
    (hn : (w.inflight.map Call.id).Nodup) (hc : c ∈ w.inflight) :
    deliver c.id reply w = flush (intercept c reply (removeCall c.id w)) := by
  unfold deliver
  rw [find_of_mem w.inflight c hn hc]

theorem intercept_401 (c : Call) (reply : Reply) (w : World) (h : reply.is401 = true) :
    ∃ e, errorOf c reply = some e ∧ e.status = some 401 ∧ e.config = c.config ∧
      intercept c reply w = onRejected c.kont e w := by
  cases reply with
  | success response => simp [Reply.is401] at h
  | failure response message code =>
    cases response with
    | none => simp [Reply.is401] at h
    | some r =>
      refine ⟨mkError c (some r) message code, rfl, ?_, rfl, rfl⟩
      simp only [Reply.is401, beq_iff_eq] at h
      simp [ApiError.status, mkError, h]

theorem nodup_filter_ids (l : List Call) (p : Call → Bool) (hn : (l.map Call.id).Nodup) :
    ((l.filter p).map Call.id).Nodup :=
  hn.sublist ((List.filter_sublist l).map Call.id)

theorem removeCall_wf (id : Nat) (w : World) (hwf : w.Wf) : (removeCall id w).Wf :=
  ⟨hwf.1, nodup_filter_ids _ _ hwf.2.1, fun c hc => hwf.2.2 c (List.mem_filter.mp hc).1⟩

theorem mem_removeCall (id : Nat) (w : World) (c : Call) :
    c ∈ (removeCall id w).inflight ↔ c ∈ w.inflight ∧ c.id ≠ id := by
  simp [removeCall, List.mem_filter]

theorem api_wf (config : Config) (kont : Kont) (w : World) (hwf : w.Wf) :
    (api config kont w).Wf := by
  refine ⟨hwf.1, ?_, ?_⟩
  · simp only [api, List.map_append, List.map_cons, List.map_nil]
    apply List.Nodup.append hwf.2.1 (by simp)
    intro i hi hi2
    simp only [List.mem_singleton] at hi2
    obtain ⟨c, hc, rfl⟩ := List.mem_map.mp hi
    have := hwf.2.2 c hc
    omega
  · intro c hc
    simp only [api, List.mem_append, List.mem_singleton] at hc
    rcases hc with hc | rfl
    · have := hwf.2.2 c hc
      show c.id < w.nextId + 1
      omega
    · show w.nextId < w.nextId + 1
      omega

/-- While a refresh is running, every further 401 only joins the queue. -/
theorem burst_refreshing (rest : List (Call × Reply)) :
    ∀ w : World, w.Wf → w.isRefreshing = true →
      (rest.map (fun x => x.1.id)).Nodup →
      (∀ x ∈ rest, x.1 ∈ w.inflight ∧ x.2.is401 = true ∧
        jsIncludes x.1.config.url checkLoginPath = false) →
      ∃ infl, run (rest.map replyEvent) w =
          { w with inflight := infl, failedQueue := w.failedQueue ++ rest.map pendingOf } ∧
        (infl.map Call.id).Nodup ∧ (∀ c ∈ infl, c ∈ w.inflight) ∧
        (∀ c ∈ w.inflight, c.id ∉ rest.map (fun x => x.1.id) → c ∈ infl) := by
  induction rest with
  | nil =>
    intro w hwf _ _ _
    exact ⟨w.inflight, by simp [run], hwf.2.1, fun c hc => hc, fun c hc _ => hc⟩
  | cons x xs ih =>
    intro w hwf hr hnd hall
    obtain ⟨hxin, hx401, hxurl⟩ := hall x (List.mem_cons_self _ _)
    obtain ⟨e, _, hes, hec, hint⟩ := intercept_401 x.1 x.2 (removeCall x.1.id w) hx401
    have hr1 : (removeCall x.1.id w).isRefreshing = true := hr
    have hj1 : (removeCall x.1.id w).jobs = [] := hwf.1
    have hstep : deliver x.1.id x.2 w =
        { removeCall x.1.id w with failedQueue := w.failedQueue ++ [pendingOf x] } := by
      rw [deliver_eq w x.1 x.2 hwf.2.1 hxin, hint,
        onRejected_queues x.1.kont e (removeCall x.1.id w) hes (by rw [hec]; exact hxurl) hr1,
        flush_nil _ (by exact hj1)]
      simp [pendingOf, hec, removeCall]
    simp only [List.map_cons, List.nodup_cons] at hnd
    have hwf0 := removeCall_wf x.1.id w hwf
    obtain ⟨infl, hrun, hn2, hsub, hsup⟩ :=
      ih { removeCall x.1.id w with failedQueue := w.failedQueue ++ [pendingOf x] }
        hwf0 hr hnd.2 (by
      intro y hy
      obtain ⟨hyin, hy401, hyurl⟩ := hall y (List.mem_cons_of_mem _ hy)
      refine ⟨?_, hy401, hyurl⟩
      apply (mem_removeCall x.1.id w y.1).mpr
      refine ⟨hyin, ?_⟩
      intro h
      exact hnd.1 (h ▸ List.mem_map_of_mem (fun x => x.1.id) hy))
    refine ⟨infl, ?_, hn2, ?_, ?_⟩
    · simp only [List.map_cons, run, List.foldl_cons, replyEvent, step]
      rw [hstep]
      have := hrun
      simp only [run, replyEvent] at this
      rw [this]
      simp [List.append_assoc, removeCall]
    · intro c hc
      exact ((mem_removeCall x.1.id w c).mp (hsub c hc)).1
    · intro c hc hnot
      simp only [List.map_cons, List.mem_cons, not_or] at hnot
      apply hsup c
      · exact (mem_removeCall x.1.id w c).mpr ⟨hc, hnot.1⟩
      · exact hnot.2

/-- A burst of 401 failures that starts while no refresh is running: the first
starts the refresh, the others join the queue. -/
theorem burst_idle (first : Call × Reply) (rest : List (Call × Reply)) (w : World)
    (hwf : w.Wf) (hidle : w.isRefreshing = false)
    (hnd : ((first :: rest).map (fun x => x.1.id)).Nodup)
    (hall : ∀ x ∈ first :: rest, x.1 ∈ w.inflight ∧ x.2.is401 = true ∧
        jsIncludes x.1.config.url checkLoginPath = false) :
    ∃ infl, run ((first :: rest).map replyEvent) w =
        { w with
          isRefreshing := true
          inflight := infl
          nextId := w.nextId + 1
          log := w.log ++ [Effect.sent w.nextId checkLoginConfig]
          failedQueue := w.failedQueue ++ rest.map pendingOf } ∧
      (infl.map Call.id).Nodup ∧ (∀ c ∈ infl, c.id < w.nextId + 1) ∧
      { id := w.nextId, config := checkLoginConfig,
        kont := Kont.afterCheck first.1.config first.1.kont } ∈ infl := by
  obtain ⟨hxin, hx401, hxurl⟩ := hall first (List.mem_cons_self _ _)
  obtain ⟨e, _, hes, hec, hint⟩ := intercept_401 first.1 first.2 (removeCall first.1.id w) hx401
  have hr1 : (removeCall first.1.id w).isRefreshing = false := hidle
  have hj1 : (removeCall first.1.id w).jobs = [] := hwf.1
  have hstep : deliver first.1.id first.2 w =
      api checkLoginConfig (Kont.afterCheck first.1.config first.1.kont)
        { removeCall first.1.id w with isRefreshing := true } := by
    rw [deliver_eq w first.1 first.2 hwf.2.1 hxin, hint,
      onRejected_refreshes first.1.kont e (removeCall first.1.id w) hes
        (by rw [hec]; exact hxurl) hr1, flush_nil _ (by exact hj1), hec]
  simp only [List.map_cons, List.nodup_cons] at hnd
  have hwf0 : ({ removeCall first.1.id w with isRefreshing := true } : World).Wf :=
    removeCall_wf first.1.id w hwf
  have hwf1 := api_wf checkLoginConfig (Kont.afterCheck first.1.config first.1.kont) _ hwf0
  obtain ⟨infl, hrun, hn2, hsub, hsup⟩ := burst_refreshing rest _ hwf1 rfl hnd.2 (by
    intro y hy
    obtain ⟨hyin, hy401, hyurl⟩ := hall y (List.mem_cons_of_mem _ hy)
    refine ⟨?_, hy401, hyurl⟩
    simp only [api, List.mem_append, List.mem_singleton]
    left
    apply (mem_removeCall first.1.id w y.1).mpr
    refine ⟨hyin, ?_⟩
    intro h
    exact hnd.1 (h ▸ List.mem_map_of_mem (fun x => x.1.id) hy))
  refine ⟨infl, ?_, hn2, ?_, ?_⟩
  · simp only [List.map_cons, run, List.foldl_cons, replyEvent, step]
    rw [hstep]
    have := hrun
    simp only [run, replyEvent] at this
    rw [this]
    rfl
  · intro c hc
    exact hwf1.2.2 c (hsub c hc)
  · apply hsup
    · simp only [api, List.mem_append, List.mem_singleton]
      right
      rfl
    · intro hmem
      obtain ⟨y, hy, hyid⟩ := List.mem_map.mp hmem
      have := hwf.2.2 y.1 (hall y (List.mem_cons_of_mem _ hy)).1
      simp only at hyid
      omega

/-! ## The reply to the check-session call -/

@[simp] theorem sentConfigs_append (l1 l2 : List Effect) :
    sentConfigs (l1 ++ l2) = sentConfigs l1 ++ sentConfigs l2 := by
  simp [sentConfigs]

@[simp] theorem settlements_append (l1 l2 : List Effect) :
    settlements (l1 ++ l2) = settlements l1 ++ settlements l2 := by
  simp [settlements]

@[simp] theorem sentConfigs_sent (id : Nat) (config : Config) :
    sentConfigs [Effect.sent id config] = [config] := rfl

@[simp] theorem settlements_sent (id : Nat) (config : Config) :
    settlements [Effect.sent id config] = [] := rfl

@[simp] theorem sentConfigs_settled (l : List (Nat × Settled)) :
    sentConfigs (l.map (fun x => Effect.settled x.1 x.2)) = [] := by
  induction l with
  | nil => rfl
  | cons x xs ih =>
    simp only [List.map_cons]
    rw [show Effect.settled x.1 x.2 :: xs.map (fun x => Effect.settled x.1 x.2)
      = [Effect.settled x.1 x.2] ++ xs.map (fun x => Effect.settled x.1 x.2) from rfl,
      sentConfigs_append, ih]
    rfl

@[simp] theorem settlements_settled (l : List (Nat × Settled)) :
    settlements (l.map (fun x => Effect.settled x.1 x.2)) = l := by
  induction l with
  | nil => rfl
  | cons x xs ih =>
    simp only [List.map_cons]
    rw [show Effect.settled x.1 x.2 :: xs.map (fun x => Effect.settled x.1 x.2)
      = [Effect.settled x.1 x.2] ++ xs.map (fun x => Effect.settled x.1 x.2) from rfl,
      settlements_append, ih]
    rfl

/-- Replaying resolved queue entries sends their requests, one after the other. -/
theorem flush_replays (q : List Pending) (token : JsVal) :
    ∀ w : World, w.jobs = q.map (fun prom => Job.replay prom token) →
      ∃ infl n lg, flush w = { w with jobs := [], inflight := infl, nextId := n, log := lg } ∧
        sentConfigs lg = sentConfigs w.log ++ q.map (fun prom => prom.originalRequest) ∧
        settlements lg = settlements w.log := by
  induction q with
  | nil =>
    intro w hj
    exact ⟨w.inflight, w.nextId, w.log, by rw [flush_nil w hj]; simp at hj; rw [← hj], by simp, rfl⟩
  | cons p ps ih =>
    intro w hj
    rw [flush_cons w _ _ hj]
    obtain ⟨infl, n, lg, hflush, hsent, hset⟩ :=
      ih (runJob (Job.replay p token)
        { w with jobs := ps.map (fun prom => Job.replay prom token) }) rfl
    refine ⟨infl, n, lg, ?_, ?_, ?_⟩
    · rw [hflush]
      rfl
    · rw [hsent]
      simp [runJob, api]
    · rw [hset]
      simp [runJob, api]

/-- Settling promises of outside callers only records the outcomes. -/
theorem flush_callers (js : List (Nat × Settled)) :
    ∀ w : World, w.jobs = js.map (fun x => Job.settle (Kont.caller x.1) x.2) →
      flush w = { w with jobs := [], log := w.log ++ js.map (fun x => Effect.settled x.1 x.2) } := by
  induction js with
  | nil =>
    intro w hj
    rw [flush_nil w hj]
    simp at hj
    simp [← hj]
  | cons x xs ih =>
    intro w hj
    rw [flush_cons w _ _ hj, ih _ rfl]
    simp [runJob]

theorem refreshCatch_jobs (e : ApiError) (w : World) :
    (refreshCatch e w).jobs =
      w.jobs ++ w.failedQueue.map (fun prom => Job.settle prom.next (Settled.rejected e)) := by
  unfold refreshCatch
  simp only
  split <;> rfl

theorem refreshCatch_log (e : ApiError) (w : World) : (refreshCatch e w).log = w.log := by
  unfold refreshCatch
  simp only
  split <;> rfl

theorem refreshCatch_failedQueue (e : ApiError) (w : World) :
    (refreshCatch e w).failedQueue = [] := by
  unfold refreshCatch
  simp only
  split <;> rfl

theorem refreshCatch_inflight (e : ApiError) (w : World) :
    (refreshCatch e w).inflight = w.inflight := by
  unfold refreshCatch
  simp only
  split <;> rfl

theorem refreshCatch_nextId (e : ApiError) (w : World) :
    (refreshCatch e w).nextId = w.nextId := by
  unfold refreshCatch
  simp only
  split <;> rfl

theorem includes_checkLoginPath : jsIncludes checkLoginPath checkLoginPath = true := by
  decide

/-- The check-session call succeeds: the queue is emptied, the initiator's
request and then every queued request are sent again, nothing else changes. -/
theorem deliver_check_success (w : World) (c : Call) (originalRequest : Config) (next : Kont)
    (response : Response) (hj : w.jobs = []) (hn : (w.inflight.map Call.id).Nodup)
    (hc : c ∈ w.inflight) (hk : c.kont = Kont.afterCheck originalRequest next) :
    ∃ infl n lg, deliver c.id (Reply.success response) w =
        { w with failedQueue := [], inflight := infl, nextId := n, log := lg } ∧
      sentConfigs lg = sentConfigs w.log ++
        originalRequest :: w.failedQueue.map (fun prom => prom.originalRequest) ∧
      settlements lg = settlements w.log := by
  rw [deliver_eq w c _ hn hc]
  have h1 : (intercept c (Reply.success response) (removeCall c.id w)).jobs =
      [Job.settle (Kont.afterCheck originalRequest next) (Settled.fulfilled response)] := by
    simp [intercept, settle, removeCall, hj, hk]
  rw [flush_cons _ _ _ h1]
  obtain ⟨infl, n, lg, hflush, hsent, hset⟩ := flush_replays w.failedQueue response.data
    (runJob (Job.settle (Kont.afterCheck originalRequest next) (Settled.fulfilled response))
      { intercept c (Reply.success response) (removeCall c.id w) with jobs := [] })
    (by simp [runJob, refreshThen, api, processQueue, intercept, settle, removeCall])
  refine ⟨infl, n, lg, ?_, ?_, ?_⟩
  · rw [hflush]
    simp [runJob, refreshThen, api, processQueue, intercept, settle, removeCall, hj]
  · rw [hsent]
    simp [runJob, refreshThen, api, processQueue, intercept, settle, removeCall]
  · rw [hset]
    simp [runJob, refreshThen, api, processQueue, intercept, settle, removeCall]

/-- The check-session call fails while only outside callers wait: every queued
caller and then the initiator are rejected with the error of the check-session
call, and nothing is sent. -/
theorem deliver_check_failure (w : World) (c : Call) (originalRequest : Config) (next : Kont)
    (response : Option Response) (message : String) (code : Option String)
    (hj : w.jobs = []) (hn : (w.inflight.map Call.id).Nodup) (hc : c ∈ w.inflight)
    (hcfg : c.config = checkLoginConfig) (hk : c.kont = Kont.afterCheck originalRequest next)
    (hnext : next = Kont.caller next.root)
    (hq : ∀ prom ∈ w.failedQueue, prom.next = Kont.caller prom.next.root) :
    (deliver c.id (Reply.failure response message code) w).log = w.log ++
      (w.failedQueue.map (fun prom =>
          (prom.next.root, Settled.rejected (passedOn (mkError c response message code)))) ++
        [(next.root, Settled.rejected (passedOn (mkError c response message code)))]).map
        (fun x => Effect.settled x.1 x.2) := by
  rw [deliver_eq w c _ hn hc]
  have hpass : intercept c (Reply.failure response message code) (removeCall c.id w) =
      settle c.kont (Settled.rejected (passedOn (mkError c response message code)))
        (removeCall c.id w) := by
    apply onRejected_passes
    intro h
    have := h.2
    simp only [mkError, hcfg, checkLoginConfig] at this
    rw [includes_checkLoginPath] at this
    exact absurd this (by decide)
  rw [hpass]
  generalize passedOn (mkError c response message code) = e
  have h1 : (settle c.kont (Settled.rejected e) (removeCall c.id w)).jobs =
      [Job.settle (Kont.afterCheck originalRequest next) (Settled.rejected e)] := by
    simp [settle, removeCall, hj, hk]
  rw [flush_cons _ _ _ h1]
  rw [flush_callers (w.failedQueue.map (fun prom => (prom.next.root, Settled.rejected e)) ++
        [(next.root, Settled.rejected e)])]
  · simp [runJob, refreshFinally, settle, refreshCatch_log, removeCall]
  · simp only [runJob, refreshFinally, settle, refreshCatch_jobs, removeCall, List.nil_append,
      List.map_append, List.map_map, List.map_cons, List.map_nil]
    rw [← hnext]
    congr 1
    apply List.map_congr_left
    intro prom hp
    simp only [Function.comp]
    rw [← hq prom hp]

/-! ## Claims on bursts -/

/-- C1: single-flight refresh. When N >= 1 requests, none addressed to the
check-session endpoint, fail with 401 one after the other before any reply to
the check-session call, starting with no refresh running, the interceptor sends
exactly one call, GET '/user/checklogin'; the N-1 later failures are appended to
failedQueue in order and send nothing. More generally, at any stage at which
isRefreshing is true, further 401 failures only join failedQueue and send
nothing. -/
theorem single_flight_refresh (first : Call × Reply) (rest : List (Call × Reply)) (w : World)
    (hwf : w.Wf) (hidle : w.isRefreshing = false)
    (hnd : ((first :: rest).map (fun x => x.1.id)).Nodup)
    (hall : ∀ x ∈ first :: rest, x.1 ∈ w.inflight ∧ x.2.is401 = true ∧
        jsIncludes x.1.config.url checkLoginPath = false) :
    ((run ((first :: rest).map replyEvent) w).log =
        w.log ++ [Effect.sent w.nextId checkLoginConfig] ∧
      (run ((first :: rest).map replyEvent) w).failedQueue =
        w.failedQueue ++ rest.map pendingOf ∧
      (run ((first :: rest).map replyEvent) w).isRefreshing = true ∧
      checkCall w first ∈ (run ((first :: rest).map replyEvent) w).inflight) ∧
    (∀ (later : List (Call × Reply)) (v : World), v.Wf → v.isRefreshing = true →
      (later.map (fun x => x.1.id)).Nodup →
      (∀ x ∈ later, x.1 ∈ v.inflight ∧ x.2.is401 = true ∧
        jsIncludes x.1.config.url checkLoginPath = false) →
      (run (later.map replyEvent) v).log = v.log ∧
      (run (later.map replyEvent) v).failedQueue = v.failedQueue ++ later.map pendingOf ∧
      (run (later.map replyEvent) v).isRefreshing = true) := by
  constructor
  · obtain ⟨infl, hrun, _, _, hmem⟩ := burst_idle first rest w hwf hidle hnd hall
    rw [hrun]
    exact ⟨rfl, rfl, rfl, hmem⟩
  · intro later v hv hr hn hl
    obtain ⟨infl, hrun, _, _, _⟩ := burst_refreshing later v hv hr hn hl
    rw [hrun]
    exact ⟨rfl, rfl, hr⟩

theorem single_flight_refresh_witness :
    (run [Event.reply 0 (sampleFailure 401), Event.reply 1 (sampleFailure 401)]
        sampleTwoCalls).log =
      sampleTwoCalls.log ++ [Effect.sent 2 checkLoginConfig] ∧
    (run [Event.reply 0 (sampleFailure 401), Event.reply 1 (sampleFailure 401)]
        sampleTwoCalls).failedQueue =
      [{ originalRequest := sampleGet "/profile", next := Kont.caller 2 }] :=
  have h := single_flight_refresh (sampleCall1, sampleFailure 401)
    [(sampleCall2, sampleFailure 401)] sampleTwoCalls (by decide) (by decide) (by decide)
    (by decide)
  ⟨h.1.1, h.1.2.1⟩

theorem run_append_reply (events : List Event) (id : Nat) (reply : Reply) (w : World) :
    run (events ++ [Event.reply id reply]) w = deliver id reply (run events w) := by
  simp [run, List.foldl_append, step]

/-- Outcome of a burst whose failures all precede the check-session reply. N
requests of outside callers fail with 401, the first starting the refresh, and
then the check-session call is answered. If it succeeds, the calls sent
afterwards are exactly the N original requests and no caller is rejected; if it
fails, nothing is sent and the promises settled are exactly those of the N
callers, each rejected with the check-session error. -/
theorem uniform_burst_outcome (first : Call × Reply) (rest : List (Call × Reply)) (w : World)
    (hwf : w.Wf) (hidle : w.isRefreshing = false) (hq : w.failedQueue = [])
    (hnd : ((first :: rest).map (fun x => x.1.id)).Nodup)
    (hall : ∀ x ∈ first :: rest, x.1 ∈ w.inflight ∧ x.2.is401 = true ∧
        jsIncludes x.1.config.url checkLoginPath = false)
    (hcallers : ∀ x ∈ first :: rest, x.1.kont = Kont.caller x.1.kont.root) :
    (∀ response : Response,
      sentConfigs (run ((first :: rest).map replyEvent ++
          [Event.reply w.nextId (Reply.success response)]) w).log =
        sentConfigs w.log ++ checkLoginConfig :: (first :: rest).map (fun x => x.1.config) ∧
      settlements (run ((first :: rest).map replyEvent ++
          [Event.reply w.nextId (Reply.success response)]) w).log = settlements w.log) ∧
    (∀ (response : Option Response) (message : String) (code : Option String),
      sentConfigs (run ((first :: rest).map replyEvent ++
          [Event.reply w.nextId (Reply.failure response message code)]) w).log =
        sentConfigs w.log ++ [checkLoginConfig] ∧
      settlements (run ((first :: rest).map replyEvent ++
          [Event.reply w.nextId (Reply.failure response message code)]) w).log =
        settlements w.log ++ (rest ++ [first]).map (fun x => (x.1.kont.root,
          Settled.rejected (passedOn (mkError (checkCall w first) response message code))))) := by
  obtain ⟨infl, hrun, hn, _, hmem⟩ := burst_idle first rest w hwf hidle hnd hall
  simp only [run_append_reply]
  generalize run ((first :: rest).map replyEvent) w = wb at hrun ⊢
  have hjobs : wb.jobs = [] := by rw [hrun]; exact hwf.1
  have hinfl : wb.inflight = infl := by rw [hrun]
  have hlog : wb.log = w.log ++ [Effect.sent w.nextId checkLoginConfig] := by rw [hrun]
  have hqueue : wb.failedQueue = rest.map pendingOf := by rw [hrun]; simp [hq]
  constructor
  · intro response
    obtain ⟨infl2, n, lg, hd, hsent, hset⟩ := deliver_check_success wb (checkCall w first)
      first.1.config first.1.kont response hjobs (hinfl ▸ hn) (hinfl ▸ hmem) rfl
    rw [show w.nextId = (checkCall w first).id from rfl, hd]
    refine ⟨?_, ?_⟩
    · show sentConfigs lg = _
      rw [hsent, hlog, hqueue]
      simp [pendingOf, Function.comp_def]
    · show settlements lg = _
      rw [hset, hlog]
      simp
  · intro response message code
    have hfail := deliver_check_failure wb (checkCall w first) first.1.config first.1.kont
      response message code hjobs (hinfl ▸ hn) (hinfl ▸ hmem) rfl rfl
      (hcallers first (List.mem_cons_self _ _)) (by
        intro prom hp
        rw [hqueue] at hp
        obtain ⟨x, hx, rfl⟩ := List.mem_map.mp hp
        exact hcallers x (List.mem_cons_of_mem _ hx))
    have hL : wb.failedQueue.map (fun prom => (prom.next.root,
          Settled.rejected (passedOn (mkError (checkCall w first) response message code)))) ++
        [(first.1.kont.root,
          Settled.rejected (passedOn (mkError (checkCall w first) response message code)))] =
        (rest ++ [first]).map (fun x => (x.1.kont.root,
          Settled.rejected (passedOn (mkError (checkCall w first) response message code)))) := by
      rw [hqueue]
      simp [pendingOf, Function.comp_def]
    rw [show w.nextId = (checkCall w first).id from rfl, hfail, hL, hlog]
    simp only [sentConfigs_append, settlements_append, sentConfigs_settled, settlements_settled,
      sentConfigs_sent, settlements_sent, List.append_nil, and_self]

theorem uniform_burst_outcome_witness :
    sentConfigs (run [Event.reply 0 (sampleFailure 401), Event.reply 1 (sampleFailure 401),
        sampleCheckOk] sampleTwoCalls).log =
      [sampleGet "/favorites", sampleGet "/profile", checkLoginConfig,
        sampleGet "/favorites", sampleGet "/profile"] ∧
    (settlements (run [Event.reply 0 (sampleFailure 401), Event.reply 1 (sampleFailure 401),
        Event.reply 2 (sampleFailure 401)] sampleTwoCalls).log).map (fun x => x.1) = [2, 1] :=
  have h := uniform_burst_outcome (sampleCall1, sampleFailure 401)
    [(sampleCall2, sampleFailure 401)] sampleTwoCalls (by decide) (by decide) (by decide)
    (by decide) (by decide) (by decide)
  ⟨(h.1 sampleOk).1,
    (congrArg (List.map (fun x => x.1))
      (h.2 (some (sampleDenied 401)) "Request failed" (some "ERR_BAD_REQUEST")).2).trans rfl⟩

/-- Replay of a burst whose failures all precede the check-session reply.
Requests r1..rk fail with 401 in that order, r1 starting the refresh, and then
the check-session call succeeds: the calls sent afterwards are r1, then the
entries of failedQueue in insertion order (those already waiting, then r2..rk),
and failedQueue is left empty; processQueue turns the entries into jobs in
insertion order and empties the queue. -/
theorem replay_is_fifo (first : Call × Reply) (rest : List (Call × Reply)) (w : World)
    (response : Response) (error : Option ApiError) (token : JsVal)
    (hwf : w.Wf) (hidle : w.isRefreshing = false)
    (hnd : ((first :: rest).map (fun x => x.1.id)).Nodup)
    (hall : ∀ x ∈ first :: rest, x.1 ∈ w.inflight ∧ x.2.is401 = true ∧
        jsIncludes x.1.config.url checkLoginPath = false) :
    sentConfigs (run ((first :: rest).map replyEvent ++
        [Event.reply w.nextId (Reply.success response)]) w).log =
      sentConfigs w.log ++ checkLoginConfig :: first.1.config ::
        (w.failedQueue.map (fun prom => prom.originalRequest) ++
          rest.map (fun x => x.1.config)) ∧
    (run ((first :: rest).map replyEvent ++
        [Event.reply w.nextId (Reply.success response)]) w).failedQueue = [] ∧
    (processQueue error token w).failedQueue = [] ∧
    (processQueue error token w).jobs = w.jobs ++ w.failedQueue.map (fun prom =>
      match error with
      | some e => Job.settle prom.next (Settled.rejected e)
      | none => Job.replay prom token) := by
  obtain ⟨infl, hrun, hn, _, hmem⟩ := burst_idle first rest w hwf hidle hnd hall
  simp only [run_append_reply]
  generalize run ((first :: rest).map replyEvent) w = wb at hrun ⊢
  have hjobs : wb.jobs = [] := by rw [hrun]; exact hwf.1
  have hinfl : wb.inflight = infl := by rw [hrun]
  have hlog : wb.log = w.log ++ [Effect.sent w.nextId checkLoginConfig] := by rw [hrun]
  have hqueue : wb.failedQueue = w.failedQueue ++ rest.map pendingOf := by rw [hrun]
  obtain ⟨infl2, n, lg, hd, hsent, _⟩ := deliver_check_success wb (checkCall w first)
    first.1.config first.1.kont response hjobs (hinfl ▸ hn) (hinfl ▸ hmem) rfl
  rw [show w.nextId = (checkCall w first).id from rfl, hd]
  refine ⟨?_, rfl, rfl, rfl⟩
  show sentConfigs lg = _
  rw [hsent, hlog, hqueue]
  simp [pendingOf, Function.comp_def]

theorem replay_is_fifo_witness :
    sentConfigs (run [Event.reply 1 (sampleFailure 401), Event.reply 0 (sampleFailure 401),
        sampleCheckOk] sampleTwoCalls).log =
      [sampleGet "/favorites", sampleGet "/profile", checkLoginConfig,
        sampleGet "/profile", sampleGet "/favorites"] :=
  (replay_is_fifo (sampleCall2, sampleFailure 401) [(sampleCall1, sampleFailure 401)]
    sampleTwoCalls sampleOk none .null (by decide) (by decide) (by decide) (by decide)).1

/-! ## What a refresh does to the session -/

theorem flush_invariant (P : World → Prop)
    (hstep : ∀ (job : Job) (rest : List Job) (w : World), w.jobs = job :: rest → P w →
      P (runJob job { w with jobs := rest })) :
    ∀ w : World, P w → P (flush w) := by
  intro w
  generalize hn : w.weight = n
  induction n using Nat.strong_induction_on generalizing w with
  | _ n ih =>
    intro hP
    cases hj : w.jobs with
    | nil => rw [flush_nil w hj]; exact hP
    | cons job rest =>
      rw [flush_cons w job rest hj]
      have hlt := runJob_weight job rest w
      have hw : ({ w with jobs := job :: rest } : World) = w := by rw [← hj]
      rw [hw] at hlt
      exact ih _ (by omega) _ rfl (hstep job rest w hj hP)

theorem getItem_eq_none_iff (st : Storage) (key : String) :
    st.getItem key = none ↔ ∀ kv ∈ st, kv.1 ≠ key := by
  simp [Storage.getItem, List.find?_eq_none]

theorem getItem_removeItem (st : Storage) (key : String) :
    (st.removeItem key).getItem key = none := by
  rw [getItem_eq_none_iff]
  intro kv hkv
  simpa [Storage.removeItem] using (List.mem_filter.mp hkv).2

theorem getItem_removeItem_none (st : Storage) (key other : String)
    (h : st.getItem key = none) : (st.removeItem other).getItem key = none := by
  rw [getItem_eq_none_iff] at h ⊢
  intro kv hkv
  exact h kv (List.mem_filter.mp hkv).1

theorem refreshCatch_wipes (e : ApiError) (w : World) : SessionWiped (refreshCatch e w) := by
  unfold refreshCatch SessionWiped
  simp only
  split
  · exact ⟨getItem_removeItem _ _, getItem_removeItem_none _ _ _ (getItem_removeItem _ _),
      getItem_removeItem _ _, rfl⟩
  · exact ⟨getItem_removeItem _ _, getItem_removeItem_none _ _ _ (getItem_removeItem _ _),
      getItem_removeItem _ _, rfl⟩

theorem refreshCatch_auth (e : ApiError) (w : World) : (refreshCatch e w).auth = w.auth := by
  unfold refreshCatch
  simp only
  split <;> rfl

theorem refreshCatch_pathname (e : ApiError) (w : World) :
    (refreshCatch e w).pathname = w.pathname := by
  unfold refreshCatch
  simp only
  split <;> rfl

theorem refreshCatch_href (e : ApiError) (w : World) :
    (refreshCatch e w).href = loginRedirect w.pathname w.href := by
  by_cases h : jsIncludes w.pathname "/login" = false ∧ jsIncludes w.pathname "/register" = false
  · simp [refreshCatch, loginRedirect, processQueue, h]
  · simp [refreshCatch, loginRedirect, processQueue, h]

theorem loginRedirect_idem (pathname : String) (href : Option String) :
    loginRedirect pathname (loginRedirect pathname href) = loginRedirect pathname href := by
  unfold loginRedirect
  split <;> rfl

/-- The state every job preserves once the `catch` handler has run. -/
theorem job_keeps_cleared (auth : AuthState) (pathname : String) (href : Option String)
    (job : Job) (w : World)
    (h : Cleared auth pathname (loginRedirect pathname href) w) :
    Cleared auth pathname (loginRedirect pathname href) (runJob job w) := by
  obtain ⟨hw, ha, hp, hh, hr, hq⟩ := h
  cases job with
  | replay prom token => exact ⟨hw, ha, hp, hh, hr, hq⟩
  | settle kont result =>
    cases kont with
    | caller k => exact ⟨hw, ha, hp, hh, hr, hq⟩
    | afterCheck orig next =>
      cases result with
      | fulfilled response =>
        exact ⟨hw, ha, hp, hh, hr, rfl⟩
      | rejected e =>
        refine ⟨refreshCatch_wipes e w, ?_, ?_, ?_, rfl, ?_⟩
        · exact (refreshCatch_auth e w).trans ha
        · exact (refreshCatch_pathname e w).trans hp
        · show (refreshCatch e w).href = _
          rw [refreshCatch_href, hp, hh, loginRedirect_idem]
        · exact refreshCatch_failedQueue e w
    | afterRetry next =>
      cases result with
      | fulfilled response => exact ⟨hw, ha, hp, hh, rfl, hq⟩
      | rejected e =>
        refine ⟨refreshCatch_wipes e w, ?_, ?_, ?_, rfl, ?_⟩
        · exact (refreshCatch_auth e w).trans ha
        · exact (refreshCatch_pathname e w).trans hp
        · show (refreshCatch e w).href = _
          rw [refreshCatch_href, hp, hh, loginRedirect_idem]
        · exact refreshCatch_failedQueue e w

/-- The check-session call fails: whatever waits in the queue, the persisted
session is gone afterwards, the store is untouched and the redirect is decided
by the pathname. -/
theorem deliver_check_failure_clears (w : World) (c : Call) (originalRequest : Config)
    (next : Kont) (response : Option Response) (message : String) (code : Option String)
    (hj : w.jobs = []) (hn : (w.inflight.map Call.id).Nodup) (hc : c ∈ w.inflight)
    (hcfg : c.config = checkLoginConfig) (hk : c.kont = Kont.afterCheck originalRequest next) :
    Cleared w.auth w.pathname (loginRedirect w.pathname w.href)
      (deliver c.id (Reply.failure response message code) w) := by
  rw [deliver_eq w c _ hn hc]
  have hpass : intercept c (Reply.failure response message code) (removeCall c.id w) =
      settle c.kont (Settled.rejected (passedOn (mkError c response message code)))
        (removeCall c.id w) := by
    apply onRejected_passes
    intro h
    have := h.2
    simp only [mkError, hcfg, checkLoginConfig] at this
    rw [includes_checkLoginPath] at this
    exact absurd this (by decide)
  rw [hpass]
  generalize passedOn (mkError c response message code) = e
  have h1 : (settle c.kont (Settled.rejected e) (removeCall c.id w)).jobs =
      [Job.settle (Kont.afterCheck originalRequest next) (Settled.rejected e)] := by
    simp [settle, removeCall, hj, hk]
  rw [flush_cons _ _ _ h1]
  apply flush_invariant (Cleared w.auth w.pathname (loginRedirect w.pathname w.href))
  · intro job rest w1 _ hP
    exact job_keeps_cleared _ _ _ job _ hP
  · refine ⟨refreshCatch_wipes e _, ?_, ?_, ?_, rfl, ?_⟩
    · exact refreshCatch_auth e _
    · exact refreshCatch_pathname e _
    · show (refreshCatch e _).href = _
      rw [refreshCatch_href]
      rfl
    · exact refreshCatch_failedQueue e _

/-- C3 (the code at the failing input): a request queued after the
check-session call succeeded, while the retry of the initiator is in flight,
is still in failedQueue when isRefreshing is back to false; nothing is in
flight and its caller never hears of it. -/
theorem late_entry_left_in_queue :
    (run lateQueueRun sampleStart).isRefreshing = false ∧
    (run lateQueueRun sampleStart).failedQueue =
      [{ originalRequest := sampleGet "/profile", next := Kont.caller 2 }] ∧
    (run lateQueueRun sampleStart).inflight = [] ∧
    (settlements (run lateQueueRun sampleStart).log).map (fun x => x.1) = [1] := by
  decide

/-- C5 (the code at the failing input): the check-session call succeeded and
the retried request was answered 403, yet the `catch` handler ran: the cookie,
localStorage 'user' and sessionStorage are gone and the page is sent to
'/login'. The caller is rejected with the 403 of the retried request. -/
theorem retry_failure_wipes_session :
    (run retryForbiddenRun sampleStart).cookies.getItem "auth_token" = none ∧
    (run retryForbiddenRun sampleStart).localStorage.getItem "user" = none ∧
    (run retryForbiddenRun sampleStart).sessionStorage = [] ∧
    (run retryForbiddenRun sampleStart).href = some "/login" ∧
    sampleStart.localStorage.getItem "user" = some "anna" ∧
    sentConfigs (run retryForbiddenRun sampleStart).log =
      [sampleGet "/favorites", checkLoginConfig, sampleGet "/favorites"] ∧
    (settlements (run retryForbiddenRun sampleStart).log).map
      (fun x => (x.1, rejectedStatus x.2)) = [(1, some 403)] := by
  decide

/-- C6 (counterexample): on the login page, after the check-session call of the
interceptor failed, the store still holds the user and no navigation is
forced. -/
theorem refresh_failure_keeps_store_user :
    ¬ ((run refreshFailsRun sampleOnLogin).auth.user = JsVal.null ∧
      (run refreshFailsRun sampleOnLogin).localStorage.getItem "user" = none) := by
  decide

/-- C6 (amended): when the check-session call of the interceptor fails, then
afterwards localStorage has no 'user' and no 'auth_checked' entry, the
auth_token cookie is removed and sessionStorage is empty, the store (user,
isAuthenticated, isLoading) is what it was, and window.location.href is set to
'/login' exactly when the pathname contains neither '/login' nor '/register'
(otherwise it is left as it was). -/
theorem refresh_failure_clears_persisted_session (w : World) (c : Call)
    (originalRequest : Config) (next : Kont) (response : Option Response) (message : String)
    (code : Option String) (hj : w.jobs = []) (hn : (w.inflight.map Call.id).Nodup)
    (hc : c ∈ w.inflight) (hcfg : c.config = checkLoginConfig)
    (hk : c.kont = Kont.afterCheck originalRequest next) :
    (deliver c.id (Reply.failure response message code) w).localStorage.getItem "user" = none ∧
    (deliver c.id (Reply.failure response message code) w).localStorage.getItem "auth_checked"
      = none ∧
    (deliver c.id (Reply.failure response message code) w).cookies.getItem "auth_token" = none ∧
    (deliver c.id (Reply.failure response message code) w).sessionStorage = [] ∧
    (deliver c.id (Reply.failure response message code) w).auth = w.auth ∧
    (deliver c.id (Reply.failure response message code) w).href =
      (if jsIncludes w.pathname "/login" = false ∧ jsIncludes w.pathname "/register" = false
        then some "/login" else w.href) := by
  obtain ⟨⟨h1, h2, h3, h4⟩, h5, _, h6, _, _⟩ :=
    deliver_check_failure_clears w c originalRequest next response message code hj hn hc hcfg hk
  exact ⟨h2, h3, h1, h4, h5, h6⟩

theorem refresh_failure_clears_persisted_session_witness :
    (run refreshFailsRun sampleStart).localStorage.getItem "user" = none ∧
    (run refreshFailsRun sampleStart).auth = sampleStart.auth ∧
    (run refreshFailsRun sampleStart).href = some "/login" :=
  have h := refresh_failure_clears_persisted_session
    (run (refreshFailsRun.take 2) sampleStart)
    { id := 1, config := checkLoginConfig,
      kont := Kont.afterCheck (sampleGet "/favorites") (Kont.caller 1) }
    (sampleGet "/favorites") (Kont.caller 1) (some (sampleDenied 401)) "Request failed"
    (some "ERR_BAD_REQUEST") (by decide) (by decide) (by decide) rfl rfl
  ⟨h.1, h.2.2.2.2.1, h.2.2.2.2.2⟩

/-- C7 (counterexample): the check-session call of the interceptor succeeds
with a session that differs from the stored one; afterwards the store and
localStorage still hold the old one. -/
theorem refresh_success_keeps_old_session :
    ¬ ((run refreshRenewsRun sampleStart).auth.user = sampleRenewed.data) ∧
    (run refreshRenewsRun sampleStart).auth.user = sampleSession ∧
    (run refreshRenewsRun sampleStart).localStorage.getItem "user" = some "anna" := by
  decide

/-- C7 (amended): when the check-session call of the interceptor succeeds with
session data d, the interceptor leaves the auth store and its persisted copy as
they were (user state, localStorage, cookies and sessionStorage unchanged); it
only empties failedQueue and sends the waiting requests again. -/
theorem refresh_success_leaves_store (w : World) (c : Call) (originalRequest : Config)
    (next : Kont) (response : Response) (hj : w.jobs = [])
    (hn : (w.inflight.map Call.id).Nodup) (hc : c ∈ w.inflight)
    (hk : c.kont = Kont.afterCheck originalRequest next) :
    (deliver c.id (Reply.success response) w).auth = w.auth ∧
    (deliver c.id (Reply.success response) w).localStorage = w.localStorage ∧
    (deliver c.id (Reply.success response) w).cookies = w.cookies ∧
    (deliver c.id (Reply.success response) w).sessionStorage = w.sessionStorage ∧
    (deliver c.id (Reply.success response) w).failedQueue = [] ∧
    sentConfigs (deliver c.id (Reply.success response) w).log = sentConfigs w.log ++
      originalRequest :: w.failedQueue.map (fun prom => prom.originalRequest) := by
  obtain ⟨infl, n, lg, hd, hsent, _⟩ :=
    deliver_check_success w c originalRequest next response hj hn hc hk
  rw [hd]
  exact ⟨rfl, rfl, rfl, rfl, rfl, hsent⟩

theorem refresh_success_leaves_store_witness :
    (run refreshRenewsRun sampleStart).auth = sampleStart.auth ∧
    (run refreshRenewsRun sampleStart).localStorage = sampleStart.localStorage :=
  have h := refresh_success_leaves_store (run (refreshRenewsRun.take 2) sampleStart)
    { id := 1, config := checkLoginConfig,
      kont := Kont.afterCheck (sampleGet "/favorites") (Kont.caller 1) }
    (sampleGet "/favorites") (Kont.caller 1) sampleRenewed (by decide) (by decide) (by decide) rfl
  ⟨h.1, h.2.1⟩

/-! ## One outstanding request -/

theorem deliver_lone (w : World) (c : Call) (id : Nat) (reply : Reply)
    (h : w.inflight = [c]) :
    deliver id reply w =
      if c.id = id then flush (intercept c reply { w with inflight := [] }) else w := by
  unfold deliver removeCall
  by_cases hid : c.id = id
  · simp [h, hid]
  · simp [h, hid]

theorem deliver_none (w : World) (id : Nat) (reply : Reply) (h : w.inflight = []) :
    deliver id reply w = w := by
  unfold deliver
  simp [h]

theorem flush_one (w : World) (job : Job) (h : w.jobs = [job])
    (h2 : (runJob job { w with jobs := [] }).jobs = []) :
    flush w = runJob job { w with jobs := [] } := by
  rw [flush_cons w job [] h, flush_nil _ h2]

theorem flush_two (w : World) (job1 job2 : Job) (h : w.jobs = [job1])
    (h2 : (runJob job1 { w with jobs := [] }).jobs = [job2])
    (h3 : (runJob job2 { runJob job1 { w with jobs := [] } with jobs := [] }).jobs = []) :
    flush w = runJob job2 { runJob job1 { w with jobs := [] } with jobs := [] } := by
  rw [flush_cons w job1 [] h, flush_cons _ job2 [] h2, flush_nil _ h3]

/-- A failure either enters the refresh branch or is passed on. -/
theorem onRejected_cases (kont : Kont) (error : ApiError) (w : World) :
    (error.status = some 401 ∧ jsIncludes error.config.url checkLoginPath = false ∧
      onRejected kont error w = (if w.isRefreshing then
        { w with failedQueue := w.failedQueue ++
            [{ originalRequest := error.config, next := kont }] }
        else api checkLoginConfig (Kont.afterCheck error.config kont)
          { w with isRefreshing := true })) ∨
    onRejected kont error w = settle kont (Settled.rejected (passedOn error)) w := by
  by_cases h : error.status = some 401 ∧ jsIncludes error.config.url checkLoginPath = false
  · left
    refine ⟨h.1, h.2, ?_⟩
    simp only [onRejected, if_pos h]
  · right
    exact onRejected_passes kont error w h

@[simp] theorem sentConfigs_settled_one (k : Nat) (result : Settled) :
    sentConfigs [Effect.settled k result] = [] := rfl

theorem starts_one (a b c : Config) : [a] <+: [a, b, c] := ⟨[b, c], rfl⟩

theorem starts_two (a b c : Config) : [a, b] <+: [a, b, c] := ⟨[c], rfl⟩

theorem starts_three (a b c : Config) : [a, b, c] <+: [a, b, c] := ⟨[], by simp⟩

theorem lone_request_sent (k : Nat) (config : Config) (before : List Config) (w : World)
    (i : Nat) (id : Nat) (reply : Reply)
    (hj : w.jobs = []) (hq : w.failedQueue = []) (hr : w.isRefreshing = false)
    (hi : w.inflight = [Call.mk i config (Kont.caller k)])
    (hs : sentConfigs w.log = before ++ [config]) :
    LoneShape k config before (deliver id reply w) := by
  rw [deliver_lone w _ id reply hi]
  split
  · cases reply with
    | success response =>
      right; right; right
      rw [flush_one _ (Job.settle (Kont.caller k) (Settled.fulfilled response))
        (by simp [intercept, settle, hj]) (by simp [runJob])]
      exact ⟨rfl, [config], by simp [runJob, intercept, settle, hs], starts_one _ _ _⟩
    | failure response message code =>
      simp only [intercept]
      rcases onRejected_cases (Kont.caller k)
        (mkError (Call.mk i config (Kont.caller k)) response message code)
        { w with inflight := [] } with ⟨_, _, h⟩ | h
      · rw [h]
        simp only [hr, Bool.false_eq_true, if_false]
        rw [flush_nil _ (by simp [api, hj])]
        right; left
        exact ⟨by simp [api, hj], by simp [api, hq], rfl, ⟨w.nextId, by simp [api, mkError]⟩,
          by simp [api, hs]⟩
      · rw [h]
        generalize passedOn (mkError (Call.mk i config (Kont.caller k))
          response message code) = e
        right; right; right
        rw [flush_one _ (Job.settle (Kont.caller k) (Settled.rejected e))
          (by simp [settle, hj]) (by simp [runJob])]
        exact ⟨rfl, [config], by simp [runJob, settle, hs], starts_one _ _ _⟩
  · exact Or.inl ⟨hj, hq, hr, ⟨i, hi⟩, hs⟩

theorem lone_check_sent (k : Nat) (config : Config) (before : List Config) (w : World)
    (i : Nat) (id : Nat) (reply : Reply)
    (hj : w.jobs = []) (hq : w.failedQueue = []) (hr : w.isRefreshing = true)
    (hi : w.inflight = [Call.mk i checkLoginConfig (Kont.afterCheck config (Kont.caller k))])
    (hs : sentConfigs w.log = before ++ [config, checkLoginConfig]) :
    LoneShape k config before (deliver id reply w) := by
  rw [deliver_lone w _ id reply hi]
  split
  · cases reply with
    | success response =>
      right; right; left
      rw [flush_one _ (Job.settle (Kont.afterCheck config (Kont.caller k))
          (Settled.fulfilled response))
        (by simp [intercept, settle, hj])
        (by simp [runJob, refreshThen, api, processQueue, intercept, settle, hq])]
      exact ⟨by simp [runJob, refreshThen, api, processQueue, intercept, settle, hq],
        by simp [runJob, refreshThen, api, processQueue],
        by simp [runJob, refreshThen, api, processQueue, intercept, settle, hr],
        ⟨w.nextId, by simp [runJob, refreshThen, api, processQueue, intercept, settle]⟩,
        by simp [runJob, refreshThen, api, processQueue, intercept, settle, hs]⟩
    | failure response message code =>
      simp only [intercept]
      rcases onRejected_cases (Kont.afterCheck config (Kont.caller k))
        (mkError (Call.mk i checkLoginConfig (Kont.afterCheck config (Kont.caller k)))
          response message code)
        { w with inflight := [] } with ⟨_, hurl, _⟩ | h
      · simp only [mkError, checkLoginConfig] at hurl
        rw [includes_checkLoginPath] at hurl
        exact absurd hurl (by decide)
      · rw [h]
        generalize passedOn (mkError (Call.mk i checkLoginConfig
          (Kont.afterCheck config (Kont.caller k))) response message code) = e
        right; right; right
        rw [flush_two _ (Job.settle (Kont.afterCheck config (Kont.caller k)) (Settled.rejected e))
          (Job.settle (Kont.caller k) (Settled.rejected e))
          (by simp [settle, hj])
          (by simp [runJob, refreshFinally, settle, refreshCatch_jobs, hq])
          (by simp [runJob])]
        exact ⟨by simp [runJob, refreshFinally, settle, refreshCatch_inflight],
          [config, checkLoginConfig],
          by simp [runJob, refreshFinally, settle, refreshCatch_log, hs], starts_two _ _ _⟩
  · exact Or.inr (Or.inl ⟨hj, hq, hr, ⟨i, hi⟩, hs⟩)

theorem lone_retry_sent (k : Nat) (config : Config) (before : List Config) (w : World)
    (i : Nat) (id : Nat) (reply : Reply)
    (hj : w.jobs = []) (hq : w.failedQueue = []) (hr : w.isRefreshing = true)
    (hi : w.inflight = [Call.mk i config (Kont.afterRetry (Kont.caller k))])
    (hs : sentConfigs w.log = before ++ [config, checkLoginConfig, config]) :
    LoneShape k config before (deliver id reply w) := by
  rw [deliver_lone w _ id reply hi]
  split
  · right; right; right
    cases reply with
    | success response =>
      rw [flush_two _ (Job.settle (Kont.afterRetry (Kont.caller k)) (Settled.fulfilled response))
        (Job.settle (Kont.caller k) (Settled.fulfilled response))
        (by simp [intercept, settle, hj])
        (by simp [runJob, refreshFinally, settle])
        (by simp [runJob])]
      exact ⟨by simp [runJob, refreshFinally, settle, intercept],
        [config, checkLoginConfig, config],
        by simp [runJob, refreshFinally, settle, intercept, hs], starts_three _ _ _⟩
    | failure response message code =>
      simp only [intercept]
      rcases onRejected_cases (Kont.afterRetry (Kont.caller k))
        (mkError (Call.mk i config (Kont.afterRetry (Kont.caller k))) response message code)
        { w with inflight := [] } with ⟨_, _, h⟩ | h
      · rw [h]
        simp only [hr, if_true]
        rw [flush_nil _ (by simp [hj])]
        exact ⟨rfl, [config, checkLoginConfig, config], by simp [hs], starts_three _ _ _⟩
      · rw [h]
        generalize passedOn (mkError (Call.mk i config (Kont.afterRetry (Kont.caller k)))
          response message code) = e
        rw [flush_two _ (Job.settle (Kont.afterRetry (Kont.caller k)) (Settled.rejected e))
          (Job.settle (Kont.caller k) (Settled.rejected e))
          (by simp [settle, hj])
          (by simp [runJob, refreshFinally, settle, refreshCatch_jobs, hq])
          (by simp [runJob])]
        exact ⟨by simp [runJob, refreshFinally, settle, refreshCatch_inflight],
          [config, checkLoginConfig, config],
          by simp [runJob, refreshFinally, settle, refreshCatch_log, hs], starts_three _ _ _⟩
  · exact Or.inr (Or.inr (Or.inl ⟨hj, hq, hr, ⟨i, hi⟩, hs⟩))

theorem lone_step (k : Nat) (config : Config) (before : List Config) (w : World)
    (id : Nat) (reply : Reply) (h : LoneShape k config before w) :
    LoneShape k config before (deliver id reply w) := by
  rcases h with ⟨hj, hq, hr, ⟨i, hi⟩, hs⟩ | ⟨hj, hq, hr, ⟨i, hi⟩, hs⟩ |
    ⟨hj, hq, hr, ⟨i, hi⟩, hs⟩ | ⟨hi, hs⟩
  · exact lone_request_sent k config before w i id reply hj hq hr hi hs
  · exact lone_check_sent k config before w i id reply hj hq hr hi hs
  · exact lone_retry_sent k config before w i id reply hj hq hr hi hs
  · rw [deliver_none w id reply hi]
    exact Or.inr (Or.inr (Or.inr ⟨hi, hs⟩))

theorem lone_run (k : Nat) (config : Config) (before : List Config)
    (replies : List (Nat × Reply)) :
    ∀ w : World, LoneShape k config before w →
      LoneShape k config before (run (replies.map (fun x => Event.reply x.1 x.2)) w) := by
  induction replies with
  | nil => intro w h; exact h
  | cons x xs ih =>
    intro w h
    exact ih _ (lone_step k config before w x.1 x.2 h)

theorem lone_sent (k : Nat) (config : Config) (before : List Config) (w : World)
    (h : LoneShape k config before w) :
    ∃ tail, sentConfigs w.log = before ++ tail ∧ tail <+: [config, checkLoginConfig, config] := by
  rcases h with ⟨_, _, _, _, hs⟩ | ⟨_, _, _, _, hs⟩ | ⟨_, _, _, _, hs⟩ | ⟨_, hs⟩
  · exact ⟨_, hs, starts_one _ _ _⟩
  · exact ⟨_, hs, starts_two _ _ _⟩
  · exact ⟨_, hs, starts_three _ _ _⟩
  · exact hs

/-- C4 (counterexample): with two requests in the burst, the retry of the
queued one answers 401 after isRefreshing was reset; the interceptor starts a
second refresh and sends the request a third time (two re-issues, two
check-session calls). -/
theorem queued_request_reissued_twice :
    ¬ ((sentConfigs (run secondRefreshRun sampleStart).log).count (sampleGet "/profile") ≤ 2) ∧
    (sentConfigs (run secondRefreshRun sampleStart).log).count checkLoginConfig = 2 := by
  decide

/-- C4 (amended): while one request is outstanding and nothing else (idle
coordinator, empty queue, nothing in flight), then for every sequence of
replies, to whatever call and with whatever outcome, the calls the client
sends are a prefix of: the request, GET '/user/checklogin', the request once
more. So the interceptor sends at most one check-session call and re-issues
the request at most once, also when the retry answers 401 again. -/
theorem lone_request_retried_at_most_once (w : World) (k : Nat) (config : Config)
    (replies : List (Nat × Reply)) (hj : w.jobs = []) (hq : w.failedQueue = [])
    (hr : w.isRefreshing = false) (hi : w.inflight = []) :
    ∃ tail, sentConfigs (run (Event.request k config ::
          replies.map (fun x => Event.reply x.1 x.2)) w).log = sentConfigs w.log ++ tail ∧
      tail <+: [config, checkLoginConfig, config] := by
  apply lone_sent k config (sentConfigs w.log)
  show LoneShape k config (sentConfigs w.log)
    (run (replies.map (fun x => Event.reply x.1 x.2)) (api config (Kont.caller k) w))
  apply lone_run
  left
  exact ⟨hj, hq, hr, ⟨w.nextId, by simp [api, hi]⟩, by simp [api]⟩

theorem lone_request_retried_at_most_once_witness :
    ∃ tail, sentConfigs (run [Event.request 1 (sampleGet "/favorites"),
          Event.reply 0 (sampleFailure 401), Event.reply 1 sampleSuccess,
          Event.reply 2 (sampleFailure 401), Event.reply 2 sampleSuccess] sampleStart).log =
        sentConfigs sampleStart.log ++ tail ∧
      tail <+: [sampleGet "/favorites", checkLoginConfig, sampleGet "/favorites"] :=
  lone_request_retried_at_most_once sampleStart 1 (sampleGet "/favorites")
    [(0, sampleFailure 401), (1, sampleSuccess), (2, sampleFailure 401), (2, sampleSuccess)]
    (by decide) (by decide) (by decide) (by decide)

/-! ## The request interceptor -/

theorem getItem_setItem_same (st : Storage) (key value : String) :
    (Storage.setItem st key value).getItem key = some value := by
  unfold Storage.setItem Storage.getItem
  rw [List.find?_append]
  have h : (st.removeItem key).find? (fun kv => kv.1 == key) = none := by
    have := getItem_removeItem st key
    unfold Storage.getItem at this
    simpa using this
  simp [h]

theorem find_filter_of_imp (p q : String × String → Bool)
    (h : ∀ x, p x = true → q x = true) :
    ∀ l : List (String × String), (l.filter q).find? p = l.find? p := by
  intro l
  induction l with
  | nil => rfl
  | cons x xs ih =>
    by_cases hq : q x = true
    · rw [List.filter_cons_of_pos hq, List.find?_cons, List.find?_cons, ih]
    · have hp : p x = false := by
        cases hpx : p x with
        | false => rfl
        | true => exact absurd (h x hpx) hq
      rw [List.filter_cons_of_neg hq, List.find?_cons, hp, ih]

theorem getItem_removeItem_ne (st : Storage) (key other : String) (h : other ≠ key) :
    (st.removeItem key).getItem other = st.getItem other := by
  unfold Storage.removeItem Storage.getItem
  rw [find_filter_of_imp]
  intro x hx
  have hx2 : x.1 = other := by simpa using hx
  simp [hx2, h]

theorem getItem_setItem_ne (st : Storage) (key value other : String) (h : other ≠ key) :
    (Storage.setItem st key value).getItem other = st.getItem other := by
  have h1 : (Storage.setItem st key value).getItem other = (st.removeItem key).getItem other := by
    unfold Storage.setItem Storage.getItem
    rw [List.find?_append]
    have hne : ¬ key = other := fun hc => h hc.symm
    cases hf : (st.removeItem key).find? (fun kv => kv.1 == other) with
    | none => simp [hne]
    | some x => simp
  rw [h1, getItem_removeItem_ne st key other h]

/-- The headers the request interceptor starts from: the config's own, with
`Authorization` set when the cookie holds a non-empty token. -/
theorem requestInterceptor_headers (cookies : Storage) (config : Config) :
    ∃ headers1, (requestInterceptor cookies config).headers =
        Storage.setItem (Storage.setItem (Storage.setItem headers1 "Cache-Control"
          "no-cache, no-store, must-revalidate") "Pragma" "no-cache") "Expires" "0" ∧
      (∀ t, cookies.getItem "auth_token" = some t → t ≠ "" →
        headers1 = Storage.setItem config.headers "Authorization" ("Bearer " ++ t)) ∧
      (cookies.getItem "auth_token" = none → headers1 = config.headers) ∧
      (headers1 = config.headers ∨
        ∃ t, headers1 = Storage.setItem config.headers "Authorization" ("Bearer " ++ t)) := by
  cases hc : cookies.getItem "auth_token" with
  | none =>
    refine ⟨config.headers, ?_, ?_, fun _ => rfl, Or.inl rfl⟩
    · simp [requestInterceptor, cookieValue, hc]
    · intro t ht
      exact absurd ht (by simp)
  | some text =>
    by_cases ht : text = ""
    · refine ⟨config.headers, ?_, ?_, fun h => absurd h (by simp), Or.inl rfl⟩
      · simp [requestInterceptor, cookieValue, hc, JsVal.truthy, ht]
      · intro t h1 h2
        simp only [Option.some.injEq] at h1
        exact absurd (h1 ▸ ht) h2
    · refine ⟨Storage.setItem config.headers "Authorization" ("Bearer " ++ text), ?_, ?_,
        fun h => absurd h (by simp), Or.inr ⟨text, rfl⟩⟩
      · simp [requestInterceptor, cookieValue, hc, JsVal.truthy, ht]
      · intro t h1 _
        simp only [Option.some.injEq] at h1
        rw [h1]

/-- C11: the request interceptor returns the config with Cache-Control =
'no-cache, no-store, must-revalidate', Pragma = 'no-cache' and Expires = '0';
Authorization is 'Bearer ' + t when the cookie auth_token holds a non-empty t
and is what it was when there is no such cookie; url, method, data and every
other header are unchanged. -/
theorem request_interceptor_sets_headers (cookies : Storage) (config : Config) :
    Storage.getItem (requestInterceptor cookies config).headers "Cache-Control" =
      some "no-cache, no-store, must-revalidate" ∧
    Storage.getItem (requestInterceptor cookies config).headers "Pragma" = some "no-cache" ∧
    Storage.getItem (requestInterceptor cookies config).headers "Expires" = some "0" ∧
    (∀ t, cookies.getItem "auth_token" = some t → t ≠ "" →
      Storage.getItem (requestInterceptor cookies config).headers "Authorization" =
        some ("Bearer " ++ t)) ∧
    (cookies.getItem "auth_token" = none →
      Storage.getItem (requestInterceptor cookies config).headers "Authorization" =
        Storage.getItem config.headers "Authorization") ∧
    (requestInterceptor cookies config).url = config.url ∧
    (requestInterceptor cookies config).method = config.method ∧
    (requestInterceptor cookies config).data = config.data ∧
    (∀ name, name ∉ ["Authorization", "Cache-Control", "Pragma", "Expires"] →
      Storage.getItem (requestInterceptor cookies config).headers name =
        Storage.getItem config.headers name) := by
  obtain ⟨headers1, hh, hsome, hnone, hcases⟩ := requestInterceptor_headers cookies config
  rw [hh]
  refine ⟨?_, ?_, ?_, ?_, ?_, rfl, rfl, rfl, ?_⟩
  · rw [getItem_setItem_ne _ _ _ _ (by decide), getItem_setItem_ne _ _ _ _ (by decide),
      getItem_setItem_same]
  · rw [getItem_setItem_ne _ _ _ _ (by decide), getItem_setItem_same]
  · rw [getItem_setItem_same]
  · intro t h1 h2
    rw [getItem_setItem_ne _ _ _ _ (by decide), getItem_setItem_ne _ _ _ _ (by decide),
      getItem_setItem_ne _ _ _ _ (by decide), hsome t h1 h2, getItem_setItem_same]
  · intro h
    rw [getItem_setItem_ne _ _ _ _ (by decide), getItem_setItem_ne _ _ _ _ (by decide),
      getItem_setItem_ne _ _ _ _ (by decide), hnone h]
  · intro name hname
    simp only [List.mem_cons, List.mem_singleton, List.not_mem_nil, or_false, not_or] at hname
    obtain ⟨h1, h2, h3, h4⟩ := hname
    rw [getItem_setItem_ne _ _ _ _ h4, getItem_setItem_ne _ _ _ _ h3,
      getItem_setItem_ne _ _ _ _ h2]
    rcases hcases with h | ⟨t, h⟩
    · rw [h]
    · rw [h, getItem_setItem_ne _ _ _ _ h1]

/-! ## checkAuth -/

/-- C12 (counterexample): the check-session call answers 200 with a text body;
checkAuth resolves with that text, which is neither a session object nor
null. -/
theorem checkAuth_resolves_text_body :
    (checkAuth sampleJson (Settled.fulfilled sampleTextBody) sampleStart).2 =
      Completion.resolved (JsVal.str "maintenance") ∧
    ¬ (∃ v, (checkAuth sampleJson (Settled.fulfilled sampleTextBody) sampleStart).2 =
        Completion.resolved v ∧ (v = JsVal.null ∨ ∃ fields, v = JsVal.obj fields)) := by
  refine ⟨rfl, ?_⟩
  rintro ⟨v, hv, hnull | ⟨fields, hobj⟩⟩
  · rw [hnull] at hv
    exact absurd hv (by decide)
  · rw [hobj] at hv
    have h : (JsVal.str "maintenance") = JsVal.obj fields := by
      have h2 : (checkAuth sampleJson (Settled.fulfilled sampleTextBody) sampleStart).2 =
          Completion.resolved (JsVal.str "maintenance") := rfl
      rw [h2] at hv
      exact Completion.resolved.inj hv
    exact JsVal.noConfusion h

/-- C12 (amended): for every outcome of GET '/user/checklogin' the promise
returned by checkAuth resolves and never rejects; it resolves with the body of
the response when the call succeeded, whatever that body is, and with null
when the call failed. -/
theorem checkAuth_always_resolves (json : JsonApi) (outcome : Settled) (w : World) :
    ∃ v, (checkAuth json outcome w).2 = Completion.resolved v ∧
      ((∃ response, outcome = Settled.fulfilled response ∧ v = response.data) ∨
        (∃ error, outcome = Settled.rejected error ∧ v = JsVal.null)) := by
  cases outcome with
  | fulfilled response => exact ⟨response.data, rfl, Or.inl ⟨response, rfl, rfl⟩⟩
  | rejected error => exact ⟨JsVal.null, rfl, Or.inr ⟨error, rfl, rfl⟩⟩

theorem checkAuth_fulfilled (json : JsonApi) (response : Response) (w : World) :
    (checkAuth json (Settled.fulfilled response) w).1 =
      setIsLoading false
        (if response.data.truthy then
          { setIsAuthenticated true (setUser response.data w) with
            localStorage := w.localStorage.setItem "user" (json.stringify response.data) }
        else setIsAuthenticated true (setUser response.data w)) := by
  simp only [checkAuth, checkAuthTry]
  split <;> rfl

/-- C13: when the check-session call succeeds with session s, after checkAuth
user = s, isAuthenticated = true and localStorage 'user' holds JSON.stringify(s)
(for every truthy s, in particular every object); when the call fails, user =
null, isAuthenticated = false and localStorage has no 'user' entry. -/
theorem checkAuth_state_effect (json : JsonApi) (w : World) :
    (∀ response : Response,
      (checkAuth json (Settled.fulfilled response) w).1.auth.user = response.data ∧
      (checkAuth json (Settled.fulfilled response) w).1.auth.isAuthenticated = true ∧
      (response.data.truthy = true →
        (checkAuth json (Settled.fulfilled response) w).1.localStorage.getItem "user" =
          some (json.stringify response.data)) ∧
      (∀ fields, response.data = JsVal.obj fields →
        (checkAuth json (Settled.fulfilled response) w).1.localStorage.getItem "user" =
          some (json.stringify (JsVal.obj fields)))) ∧
    (∀ error : ApiError,
      (checkAuth json (Settled.rejected error) w).1.auth.user = JsVal.null ∧
      (checkAuth json (Settled.rejected error) w).1.auth.isAuthenticated = false ∧
      (checkAuth json (Settled.rejected error) w).1.localStorage.getItem "user" = none) := by
  constructor
  · intro response
    have htruthy : response.data.truthy = true →
        (checkAuth json (Settled.fulfilled response) w).1.localStorage.getItem "user" =
          some (json.stringify response.data) := by
      intro ht
      rw [checkAuth_fulfilled, if_pos ht]
      exact getItem_setItem_same _ _ _
    refine ⟨?_, ?_, htruthy, ?_⟩
    · rw [checkAuth_fulfilled]
      split <;> rfl
    · rw [checkAuth_fulfilled]
      split <;> rfl
    · intro fields hf
      rw [← hf]
      exact htruthy (by rw [hf]; rfl)
  · intro error
    exact ⟨rfl, rfl, getItem_removeItem _ _⟩

/-! ## login and logout -/

/-- C14 (counterexample): the remote logout call fails with a network error;
logout rejects with that error and the user, the flag and the cookie are what
they were. -/
theorem logout_failure_rejects :
    (logout (Settled.rejected sampleNetworkError) sampleStart).2 =
      Completion.rejected (JsError.api sampleNetworkError) ∧
    (logout (Settled.rejected sampleNetworkError) sampleStart).1.auth.user = sampleSession ∧
    (logout (Settled.rejected sampleNetworkError) sampleStart).1.auth.isAuthenticated = true ∧
    (logout (Settled.rejected sampleNetworkError) sampleStart).1.cookies.getItem "auth_token" =
      some "t0" := by
  decide

/-- C14 (amended): when the remote GET '/user/logout' call fails, logout
rejects with that failure and leaves the store and the cookie as they were;
when it succeeds, logout resolves, sets user = null and isAuthenticated = false
and removes the auth_token cookie. -/
theorem logout_clears_after_success (error : ApiError) (response : Response) (w : World) :
    logout (Settled.rejected error) w = (w, Completion.rejected (JsError.api error)) ∧
    (logout (Settled.fulfilled response) w).2 = Completion.resolved JsVal.undefined ∧
    (logout (Settled.fulfilled response) w).1.auth.user = JsVal.null ∧
    (logout (Settled.fulfilled response) w).1.auth.isAuthenticated = false ∧
    (logout (Settled.fulfilled response) w).1.cookies.getItem "auth_token" = none :=
  ⟨rfl, rfl, rfl, rfl, getItem_removeItem _ _⟩

/-- C15 (the code at the failing input): checkAuth has persisted the session,
then logout resolves: user is null, but localStorage 'user' still holds the
session, and a reload hydrates it again as an authenticated user. logout never
writes localStorage, whatever the outcome. -/
theorem logout_keeps_persisted_session :
    (logout (Settled.fulfilled sampleEmptyOk)
      (checkAuth sampleJson (Settled.fulfilled sampleOk) sampleStart).1).2 =
        Completion.resolved JsVal.undefined ∧
    (logout (Settled.fulfilled sampleEmptyOk)
      (checkAuth sampleJson (Settled.fulfilled sampleOk) sampleStart).1).1.auth.user =
        JsVal.null ∧
    (logout (Settled.fulfilled sampleEmptyOk)
      (checkAuth sampleJson (Settled.fulfilled sampleOk) sampleStart).1).1.localStorage.getItem
        "user" = some (sampleStringify sampleSession) ∧
    (initEffect sampleJson (World.initial "/" [] (logout (Settled.fulfilled sampleEmptyOk)
      (checkAuth sampleJson (Settled.fulfilled sampleOk) sampleStart).1).1.localStorage []
        AuthState.initial)).1.auth.isAuthenticated = true ∧
    (∀ (outcome : Settled) (w : World), (logout outcome w).1.localStorage = w.localStorage) := by
  refine ⟨by decide, by decide, by decide, by decide, ?_⟩
  intro outcome w
  cases outcome <;> rfl

/-- C16: when POST '/user/login' succeeds with body s, login resolves with s and
leaves user = s and isAuthenticated = true; localStorage, the cookies and
sessionStorage are unchanged. -/
theorem login_sets_session_only (response : Response) (w : World) :
    (login (Settled.fulfilled response) w).2 = Completion.resolved response.data ∧
    (login (Settled.fulfilled response) w).1.auth.user = response.data ∧
    (login (Settled.fulfilled response) w).1.auth.isAuthenticated = true ∧
    (login (Settled.fulfilled response) w).1.localStorage = w.localStorage ∧
    (login (Settled.fulfilled response) w).1.cookies = w.cookies ∧
    (login (Settled.fulfilled response) w).1.sessionStorage = w.sessionStorage :=
  ⟨rfl, rfl, rfl, rfl, rfl, rfl⟩

/-! ## uploadAvatar -/

/-- C17 (the code at the failing input): the avatar upload succeeds and the
check-session call of the follow-up checkAuth fails, so checkAuth resolves with
null; reading `.avatar` of null throws, the `catch` block throws it again and
uploadAvatar rejects instead of returning the uploaded reference. When
checkAuth yields an object, the result is its avatar if that is truthy and the
uploaded reference otherwise. -/
theorem uploadAvatar_rejects_without_session (json : JsonApi) (response : Response)
    (w : World) :
    (∀ error : ApiError,
      (uploadAvatar json (Settled.fulfilled response) (Settled.rejected error) w).2 =
        Completion.rejected
          (JsError.typeError "Cannot read properties of null (reading 'avatar')")) ∧
    (∀ (checked : Response) (fields : List (String × String)),
      checked.data = JsVal.obj fields →
      (uploadAvatar json (Settled.fulfilled response) (Settled.fulfilled checked) w).2 =
        Completion.resolved
          (match Storage.getItem fields "avatar" with
            | some text => jsOr (JsVal.str text) response.data
            | none => response.data)) := by
  constructor
  · intro error
    rfl
  · intro checked fields hf
    simp only [uploadAvatar, checkAuth, checkAuthTry, hf, JsVal.getProp]
    cases Storage.getItem fields "avatar" with
    | none => rfl
    | some text => rfl

/-! ## Initialization -/

/-- C18 (counterexample): localStorage 'user' holds the empty text, which is not
JSON; the initialization effect leaves the entry where it is. -/
theorem empty_slot_is_kept :
    sampleJson.parse "" = none ∧
    sampleEmptySlot.localStorage.getItem "user" = some "" ∧
    ¬ ((initEffect sampleJson sampleEmptySlot).1.localStorage.getItem "user" = none) := by
  decide

/-- C18 (amended): for every non-empty text stored under localStorage 'user'
that JSON.parse rejects, the initialization effect removes the entry and leaves
the store as it was (user = null, isAuthenticated = false in the initial
state); when the key is absent, or holds the empty text, nothing is changed;
in each case the effect is defined (it throws nothing) and starts exactly one
checkAuth call. -/
theorem hydration_discards_bad_entry (json : JsonApi) (w : World) :
    (∀ text, w.localStorage.getItem "user" = some text → text ≠ "" → json.parse text = none →
      (initEffect json w).1.localStorage.getItem "user" = none ∧
      (initEffect json w).1.auth = w.auth) ∧
    (w.localStorage.getItem "user" = none ∨ w.localStorage.getItem "user" = some "" →
      (initEffect json w).1 = w) ∧
    (initEffect json w).2 = [AuthCall.checkAuth] ∧
    AuthState.initial.user = JsVal.null ∧ AuthState.initial.isAuthenticated = false := by
  refine ⟨?_, ?_, rfl, rfl, rfl⟩
  · intro text hs hne hp
    simp only [initEffect, hs, hydrateTry, hp, JsVal.truthy]
    have : (text != "") = true := by simpa using hne
    simp only [this, if_true]
    exact ⟨getItem_removeItem _ _, trivial⟩
  · rintro (h | h)
    · simp only [initEffect, h]
    · simp only [initEffect, h, JsVal.truthy]
      rfl

theorem hydration_discards_bad_entry_witness :
    (initEffect sampleJson sampleBadSlot).1.localStorage.getItem "user" = none ∧
    (initEffect sampleJson sampleBadSlot).1.auth = AuthState.initial :=
  (hydration_discards_bad_entry sampleJson sampleBadSlot).1 "anna" (by decide) (by decide)
    (by decide)

/-! ## The loading flag -/

theorem applyOps_isLoading (ops : List AuthOp) :
    ∀ w : World, (applyOps ops w).auth.isLoading = w.auth.isLoading := by
  induction ops with
  | nil => intro w; rfl
  | cons op rest ih =>
    intro w
    show (applyOps rest (AuthOp.apply w op)).auth.isLoading = _
    rw [ih]
    cases op with
    | login outcome => cases outcome <;> rfl
    | logout outcome => cases outcome <;> rfl
    | register outcome => cases outcome <;> rfl

theorem initEffect_isLoading (json : JsonApi) (w : World) :
    (initEffect json w).1.auth.isLoading = w.auth.isLoading := by
  simp only [initEffect]
  cases w.localStorage.getItem "user" with
  | none => rfl
  | some text =>
    simp only
    split
    · simp only [hydrateTry]
      cases json.parse text <;> rfl
    · rfl

/-- C19: isLoading is true in the initial store state and stays true through
the initialization effect and any login, logout and register that settle
before the initial checkAuth does; it is false once checkAuth has settled,
whether its call succeeded or failed, and login, logout and register (with any
outcome) leave it false afterwards. -/
theorem loading_until_checkAuth_settles (json : JsonApi) (w : World) (early later : List AuthOp)
    (outcome : Settled) (h : w.auth = AuthState.initial) :
    w.auth.isLoading = true ∧
    (initEffect json w).1.auth.isLoading = true ∧
    (applyOps early (initEffect json w).1).auth.isLoading = true ∧
    (checkAuth json outcome (applyOps early (initEffect json w).1)).1.auth.isLoading = false ∧
    (applyOps later
      (checkAuth json outcome (applyOps early (initEffect json w).1)).1).auth.isLoading =
        false := by
  have h0 : w.auth.isLoading = true := by rw [h]; rfl
  refine ⟨h0, ?_, ?_, rfl, ?_⟩
  · rw [initEffect_isLoading, h0]
  · rw [applyOps_isLoading, initEffect_isLoading, h0]
  · rw [applyOps_isLoading]
    rfl

theorem loading_until_checkAuth_settles_witness :
    (applyOps [AuthOp.login (Settled.fulfilled sampleOk)]
      (initEffect sampleJson sampleBadSlot).1).auth.isLoading = true ∧
    (checkAuth sampleJson (Settled.rejected sampleNetworkError)
      (applyOps [AuthOp.login (Settled.fulfilled sampleOk)]
        (initEffect sampleJson sampleBadSlot).1)).1.auth.isLoading = false :=
  have h := loading_until_checkAuth_settles sampleJson sampleBadSlot
    [AuthOp.login (Settled.fulfilled sampleOk)] [AuthOp.logout (Settled.fulfilled sampleEmptyOk)]
    (Settled.rejected sampleNetworkError) rfl
  ⟨h.2.2.1, h.2.2.2.1⟩

/-! ## The authenticated-only guard -/

/-- C20 (counterexample): the check-session call answers 200 with the body
null; checkAuth leaves user = null with isAuthenticated = true, and in that
state, with isLoading = false, PrivateRoute renders its children although the
store holds no session. -/
theorem private_route_admits_null_user :
    (checkAuth sampleJson (Settled.fulfilled sampleNullBody) sampleStart).1.auth =
      AuthState.mk JsVal.null true false ∧
    App.PrivateRoute (AuthState.mk JsVal.null true false) = GuardResult.children ∧
    ¬ (App.PrivateRoute (AuthState.mk JsVal.null true false) = GuardResult.children ↔
      (AuthState.mk JsVal.null true false).user.nonNull = true) := by
  decide

/-- C20 (amended): for every auth state with isLoading = false, PrivateRoute
renders its children if and only if isAuthenticated is true, and otherwise
redirects to '/login' (App.js assigns window.location.href, routes.js renders
Navigate); in the states in which isAuthenticated is true exactly when user is
non-null, that is if and only if the store holds a non-null session. -/
theorem private_route_follows_flag (auth : AuthState) (h : auth.isLoading = false) :
    (App.PrivateRoute auth = GuardResult.children ↔ auth.isAuthenticated = true) ∧
    (auth.isAuthenticated = false → App.PrivateRoute auth = GuardResult.assignHref "/login") ∧
    (routes.PrivateRoute auth = GuardResult.children ↔ auth.isAuthenticated = true) ∧
    (auth.isAuthenticated = false →
      routes.PrivateRoute auth = GuardResult.navigate "/login" true none) ∧
    ((auth.isAuthenticated = true ↔ auth.user.nonNull = true) →
      (App.PrivateRoute auth = GuardResult.children ↔ auth.user.nonNull = true)) := by
  have h1 : (App.PrivateRoute auth = GuardResult.children ↔ auth.isAuthenticated = true) := by
    unfold App.PrivateRoute
    cases ha : auth.isAuthenticated <;> simp [h]
  refine ⟨h1, ?_, ?_, ?_, ?_⟩
  · intro ha
    simp [App.PrivateRoute, h, ha]
  · unfold routes.PrivateRoute
    cases ha : auth.isAuthenticated <;> simp
  · intro ha
    simp [routes.PrivateRoute, ha]
  · intro hiff
    exact h1.trans hiff

theorem private_route_follows_flag_witness :
    App.PrivateRoute sampleStart.auth = GuardResult.children ∧
    routes.PrivateRoute sampleStart.auth = GuardResult.children :=
  have h := private_route_follows_flag sampleStart.auth rfl
  ⟨h.1.mpr rfl, h.2.2.1.mpr rfl⟩

/-! ## Guards and the login page -/

theorem fromPathname_App_PrivateRoute (auth : AuthState) :
    (App.PrivateRoute auth).fromPathname = none := by
  unfold App.PrivateRoute
  split
  · rfl
  · split <;> rfl

theorem fromPathname_routes_PrivateRoute (auth : AuthState) :
    (routes.PrivateRoute auth).fromPathname = none := by
  unfold routes.PrivateRoute
  split <;> rfl

/-- C21 (the code at the failing input): a loaded store without a session
reaches the guarded path '/favorites'; PrivateRoute assigns
window.location.href = '/login' (routes.js renders Navigate without state), so
the login page finds no location state and its redirect target is '/', not
'/favorites'. No auth state makes either guard pass a path on. -/
theorem login_redirect_loses_requested_path :
    App.PrivateRoute sampleAnonymous = GuardResult.assignHref "/login" ∧
    routes.PrivateRoute sampleAnonymous = GuardResult.navigate "/login" true none ∧
    LoginPage.redirectTarget (App.PrivateRoute sampleAnonymous).fromPathname = "/" ∧
    LoginPage.redirectTarget (routes.PrivateRoute sampleAnonymous).fromPathname = "/" ∧
    LoginPage.redirectTarget (some "/favorites") = "/favorites" ∧
    (∀ auth : AuthState,
      LoginPage.redirectTarget (App.PrivateRoute auth).fromPathname = "/" ∧
      LoginPage.redirectTarget (routes.PrivateRoute auth).fromPathname = "/") := by
  refine ⟨by decide, by decide, by decide, by decide, by decide, ?_⟩
  intro auth
  rw [fromPathname_App_PrivateRoute, fromPathname_routes_PrivateRoute]
  exact ⟨rfl, rfl⟩

theorem includesRole_iff (allowedRoles : List String) (role : JsVal) :
    includesRole allowedRoles role = true ↔ ∃ name ∈ allowedRoles, role = JsVal.str name := by
  cases role with
  | str name => simp [includesRole]
  | undefined => simp [includesRole]
  | null => simp [includesRole]
  | bool b => simp [includesRole]
  | num n => simp [includesRole]
  | obj fields => simp [includesRole]

theorem optProp_str_truthy (user : JsVal) (key name : String)
    (h : user.optProp key = JsVal.str name) : user.truthy = true ∧ user.nonNull = true := by
  cases user with
  | obj fields => exact ⟨rfl, rfl⟩
  | undefined => simp [JsVal.optProp, JsVal.getProp] at h
  | null => simp [JsVal.optProp, JsVal.getProp] at h
  | bool b => simp [JsVal.optProp, JsVal.getProp] at h
  | num n => simp [JsVal.optProp, JsVal.getProp] at h
  | str s => simp [JsVal.optProp, JsVal.getProp] at h

/-- The role test of both RoleRoute variants. -/
theorem role_test_iff (allowedRoles : List String) (user : JsVal) :
    (!user.truthy || !includesRole allowedRoles (user.optProp "role")) = false ↔
      user.nonNull = true ∧ ∃ name ∈ allowedRoles, user.optProp "role" = JsVal.str name := by
  constructor
  · intro h
    simp only [Bool.or_eq_false_iff, Bool.not_eq_false'] at h
    obtain ⟨name, hmem, hname⟩ := (includesRole_iff _ _).mp h.2
    exact ⟨(optProp_str_truthy user "role" name hname).2, name, hmem, hname⟩
  · rintro ⟨_, name, hmem, hname⟩
    have ht := (optProp_str_truthy user "role" name hname).1
    have hi := (includesRole_iff allowedRoles (user.optProp "role")).mpr ⟨name, hmem, hname⟩
    simp [ht, hi]

/-- C22: for every allow-list L and every auth state with isLoading = false,
RoleRoute renders its children if and only if user is non-null and user.role
is an element of L; in every other case it redirects to '/' (App.js assigns
window.location.href, routes.js renders Navigate), never to '/login'. -/
theorem role_route_decision (allowedRoles : List String) (auth : AuthState)
    (h : auth.isLoading = false) :
    (App.RoleRoute allowedRoles auth = GuardResult.children ↔
      auth.user.nonNull = true ∧
        ∃ name ∈ allowedRoles, auth.user.optProp "role" = JsVal.str name) ∧
    (App.RoleRoute allowedRoles auth ≠ GuardResult.children →
      App.RoleRoute allowedRoles auth = GuardResult.assignHref "/") ∧
    App.RoleRoute allowedRoles auth ≠ GuardResult.assignHref "/login" ∧
    (routes.RoleRoute allowedRoles auth = GuardResult.children ↔
      auth.user.nonNull = true ∧
        ∃ name ∈ allowedRoles, auth.user.optProp "role" = JsVal.str name) ∧
    (routes.RoleRoute allowedRoles auth ≠ GuardResult.children →
      routes.RoleRoute allowedRoles auth = GuardResult.navigate "/" true none) ∧
    routes.RoleRoute allowedRoles auth ≠ GuardResult.navigate "/login" true none := by
  have hiff := role_test_iff allowedRoles auth.user
  cases htest : (!auth.user.truthy || !includesRole allowedRoles (auth.user.optProp "role")) with
  | false =>
    have hyes := hiff.mp htest
    have hA : App.RoleRoute allowedRoles auth = GuardResult.children := by
      simp [App.RoleRoute, h, htest]
    have hR : routes.RoleRoute allowedRoles auth = GuardResult.children := by
      simp [routes.RoleRoute, htest]
    rw [hA, hR]
    exact ⟨⟨fun _ => hyes, fun _ => rfl⟩, fun hc => absurd rfl hc, by decide,
      ⟨fun _ => hyes, fun _ => rfl⟩, fun hc => absurd rfl hc, by decide⟩
  | true =>
    have hno : ¬ (auth.user.nonNull = true ∧
        ∃ name ∈ allowedRoles, auth.user.optProp "role" = JsVal.str name) := by
      intro hc
      have := hiff.mpr hc
      rw [htest] at this
      exact absurd this (by decide)
    have hA : App.RoleRoute allowedRoles auth = GuardResult.assignHref "/" := by
      simp [App.RoleRoute, h, htest]
    have hR : routes.RoleRoute allowedRoles auth = GuardResult.navigate "/" true none := by
      simp [routes.RoleRoute, htest]
    rw [hA, hR]
    exact ⟨⟨fun hc => absurd hc (by decide), fun hc => absurd hc hno⟩, fun _ => rfl, by decide,
      ⟨fun hc => absurd hc (by decide), fun hc => absurd hc hno⟩, fun _ => rfl, by decide⟩

theorem role_route_decision_witness :
    App.RoleRoute ["ADMIN"] (sampleMember "USER") = GuardResult.assignHref "/" ∧
    routes.RoleRoute ["ADMIN"] (sampleMember "USER") = GuardResult.navigate "/" true none :=
  have h := role_route_decision ["ADMIN"] (sampleMember "USER") rfl
  ⟨h.2.1 (by decide), h.2.2.2.2.1 (by decide)⟩

/-- C23: for every auth state with isLoading = true, whatever user,
isAuthenticated and the allow-list are, the guards PrivateRoute and RoleRoute
that App.js mounts return the pending placeholder: they neither render their
children nor redirect. -/
theorem guards_neutral_while_loading (allowedRoles : List String) (auth : AuthState)
    (h : auth.isLoading = true) :
    App.PrivateRoute auth = GuardResult.loading ∧
    App.RoleRoute allowedRoles auth = GuardResult.loading ∧
    App.PrivateRoute auth ≠ GuardResult.children ∧
    App.RoleRoute allowedRoles auth ≠ GuardResult.children ∧
    (∀ url : String, App.PrivateRoute auth ≠ GuardResult.assignHref url ∧
      App.RoleRoute allowedRoles auth ≠ GuardResult.assignHref url) ∧
    (∀ (target : String) (replace : Bool) (state : Option String),
      App.PrivateRoute auth ≠ GuardResult.navigate target replace state ∧
      App.RoleRoute allowedRoles auth ≠ GuardResult.navigate target replace state) := by
  have hP : App.PrivateRoute auth = GuardResult.loading := by simp [App.PrivateRoute, h]
  have hR : App.RoleRoute allowedRoles auth = GuardResult.loading := by simp [App.RoleRoute, h]
  rw [hP, hR]
  refine ⟨rfl, rfl, ?_, ?_, ?_, ?_⟩
  · intro hc; cases hc
  · intro hc; cases hc
  · intro url
    exact ⟨fun hc => (by cases hc), fun hc => (by cases hc)⟩
  · intro target replace state
    exact ⟨fun hc => (by cases hc), fun hc => (by cases hc)⟩

theorem guards_neutral_while_loading_witness :
    App.PrivateRoute (AuthState.mk sampleSession true true) = GuardResult.loading ∧
    App.RoleRoute ["USER"] (AuthState.mk sampleSession true true) = GuardResult.loading ∧
    App.PrivateRoute sampleLoading = GuardResult.loading ∧
    App.RoleRoute ["ADMIN"] sampleLoading = GuardResult.loading :=
  have h := guards_neutral_while_loading ["USER"] (AuthState.mk sampleSession true true) rfl
  ⟨h.1, h.2.1, by decide, by decide⟩

/-- The guards of routes.js, a module that nothing imports, do not read
isLoading: given a loading store they redirect or render their children. -/
theorem routes_guards_ignore_isLoading :
    sampleLoading.isLoading = true ∧
    routes.PrivateRoute sampleLoading = GuardResult.navigate "/login" true none ∧
    routes.RoleRoute ["ADMIN"] sampleLoading = GuardResult.navigate "/" true none ∧
    routes.PrivateRoute (AuthState.mk sampleSession true true) = GuardResult.children ∧
    routes.RoleRoute ["USER"] (AuthState.mk sampleSession true true) = GuardResult.children := by
  decide

/-- C24 (the code at the failing input): outside an AuthProvider useContext
returns the default value given to createContext, which is an object and not
undefined, so the test `context === undefined` fails and useAuth returns that
default value instead of throwing. It throws only for a provider whose value
is undefined; inside a provider it returns the provider's value. -/
theorem useAuth_outside_provider_returns_default :
    useAuth none = Except.ok (ContextValue.mk (AuthState.mk JsVal.null false true) false) ∧
    useAuth none ≠ Except.error "useAuth must be used within an AuthProvider" ∧
    useAuth (some ContextSlot.undefined) =
      Except.error "useAuth must be used within an AuthProvider" ∧
    (∀ held : ContextValue, useAuth (some (ContextSlot.value held)) = Except.ok held) := by
  refine ⟨rfl, ?_, rfl, fun _ => rfl⟩
  intro h
  cases h

/-! ## api.safeGet -/

/-- C25: api.safeGet returns the body when the first GET succeeds; rethrows the
same error after a single call when it fails with a status other than 401; on
a 401 it makes one check-session call and, when that succeeds, one retry whose
body it returns; when the check-session call or the retry fails it throws the
first error. The calls it makes are always a prefix of: the GET, GET
'/user/checklogin', the GET once more, so there is never more than one
retry. -/
theorem safeGet_retries_once (url : String) (config : Config) :
    (∀ (response : Response) (check retry : Settled),
      safeGet url config (Settled.fulfilled response) check retry =
        (Completion.resolved response.data, [getConfig url config])) ∧
    (∀ (error : ApiError) (check retry : Settled), error.status ≠ some 401 →
      safeGet url config (Settled.rejected error) check retry =
        (Completion.rejected (JsError.api error), [getConfig url config])) ∧
    (∀ (error : ApiError) (checked retried : Response), error.status = some 401 →
      safeGet url config (Settled.rejected error) (Settled.fulfilled checked)
          (Settled.fulfilled retried) =
        (Completion.resolved retried.data,
          [getConfig url config, checkLoginConfig, getConfig url config])) ∧
    (∀ (error checkError : ApiError) (retry : Settled), error.status = some 401 →
      safeGet url config (Settled.rejected error) (Settled.rejected checkError) retry =
        (Completion.rejected (JsError.api error), [getConfig url config, checkLoginConfig])) ∧
    (∀ (error retryError : ApiError) (checked : Response), error.status = some 401 →
      safeGet url config (Settled.rejected error) (Settled.fulfilled checked)
          (Settled.rejected retryError) =
        (Completion.rejected (JsError.api error),
          [getConfig url config, checkLoginConfig, getConfig url config])) ∧
    (∀ first check retry : Settled,
      (safeGet url config first check retry).2 <+:
        [getConfig url config, checkLoginConfig, getConfig url config]) := by
  refine ⟨fun _ _ _ => rfl, ?_, ?_, ?_, ?_, ?_⟩
  · intro error check retry h
    simp [safeGet, h]
  · intro error checked retried h
    simp [safeGet, h]
  · intro error checkError retry h
    simp [safeGet, h]
  · intro error retryError checked h
    simp [safeGet, h]
  · intro first check retry
    cases first with
    | fulfilled response => exact ⟨[checkLoginConfig, getConfig url config], rfl⟩
    | rejected error =>
      by_cases h : error.status = some 401
      · cases check with
        | rejected checkError =>
          simp only [safeGet, h, if_true]
          exact ⟨[getConfig url config], rfl⟩
        | fulfilled checked =>
          cases retry with
          | fulfilled retried =>
            simp only [safeGet, h, if_true]
            exact ⟨[], by simp⟩
          | rejected retryError =>
            simp only [safeGet, h, if_true]
            exact ⟨[], by simp⟩
      · simp only [safeGet, h, if_false]
        exact ⟨[checkLoginConfig, getConfig url config], rfl⟩

/-! ## The coordinator after a retry that answers 401 -/

/-- C26 (the code at the failing input): the initiator fails with 401, the
check-session call succeeds, the retried request answers 401 while isRefreshing
is still true. The retry is parked in failedQueue, nothing is in flight, the
caller is never settled and isRefreshing stays true; a later request that
answers 401 is only queued as well. -/
theorem refreshing_with_nothing_in_flight :
    (run retryDeniedRun sampleStart).isRefreshing = true ∧
    (run retryDeniedRun sampleStart).inflight = [] ∧
    (run retryDeniedRun sampleStart).jobs = [] ∧
    (run retryDeniedRun sampleStart).failedQueue =
      [Pending.mk (sampleGet "/favorites") (Kont.afterRetry (Kont.caller 1))] ∧
    sentConfigs (run retryDeniedRun sampleStart).log =
      [sampleGet "/favorites", checkLoginConfig, sampleGet "/favorites"] ∧
    settlements (run retryDeniedRun sampleStart).log = [] ∧
    (run afterDeadlockRun sampleStart).isRefreshing = true ∧
    (run afterDeadlockRun sampleStart).inflight = [] ∧
    (run afterDeadlockRun sampleStart).failedQueue.length = 2 ∧
    settlements (run afterDeadlockRun sampleStart).log = [] := by
  decide

/-! ## The flag and the user -/

/-- C27 (counterexample): localStorage 'user' holds the text `null`, which
JSON.parse accepts; hydration sets user = null and isAuthenticated = true. The
same happens in login when the body of the 2xx response is null. -/
theorem null_session_counts_as_authenticated :
    sampleJson.parse "null" = some JsVal.null ∧
    ¬ (initEffect sampleJson sampleNullSlot).1.auth.Consistent ∧
    ¬ (login (Settled.fulfilled sampleNullBody) sampleStart).1.auth.Consistent ∧
    ¬ (checkAuth sampleJson (Settled.fulfilled sampleNullBody) sampleStart).1.auth.Consistent := by
  refine ⟨by decide, ?_, ?_, ?_⟩ <;>
  · intro h
    exact absurd (h.mp rfl) (by decide)

/-- C27 (amended): isAuthenticated is true if and only if user is non-null
after checkAuth with a 2xx body that is not null and after any failure of it,
after a login whose body is not null, after a successful logout, and after
hydration when the stored text does not parse to null; a failed login or
logout leaves the store as it was. -/
theorem store_consistent_for_non_null_sessions (json : JsonApi) (w : World) :
    (∀ response : Response, response.data.nonNull = true →
      (checkAuth json (Settled.fulfilled response) w).1.auth.Consistent) ∧
    (∀ error : ApiError, (checkAuth json (Settled.rejected error) w).1.auth.Consistent) ∧
    (∀ response : Response, response.data.nonNull = true →
      (login (Settled.fulfilled response) w).1.auth.Consistent) ∧
    (∀ response : Response, (logout (Settled.fulfilled response) w).1.auth.Consistent) ∧
    (∀ error : ApiError, (login (Settled.rejected error) w).1.auth = w.auth ∧
      (logout (Settled.rejected error) w).1.auth = w.auth) ∧
    (w.auth.Consistent →
      (∀ text value, w.localStorage.getItem "user" = some text →
        json.parse text = some value → value.nonNull = true) →
      (initEffect json w).1.auth.Consistent) := by
  refine ⟨?_, ?_, ?_, ?_, fun _ => ⟨rfl, rfl⟩, ?_⟩
  · intro response hn
    have h1 : (checkAuth json (Settled.fulfilled response) w).1.auth.user = response.data := by
      rw [checkAuth_fulfilled]
      split <;> rfl
    have h2 : (checkAuth json (Settled.fulfilled response) w).1.auth.isAuthenticated = true := by
      rw [checkAuth_fulfilled]
      split <;> rfl
    unfold AuthState.Consistent
    rw [h1, h2, hn]
  · intro error
    unfold AuthState.Consistent
    exact ⟨fun h => Bool.noConfusion (show false = true from h),
      fun h => Bool.noConfusion (show false = true from h)⟩
  · intro response hn
    unfold AuthState.Consistent
    exact ⟨fun _ => hn, fun _ => rfl⟩
  · intro response
    unfold AuthState.Consistent
    exact ⟨fun h => Bool.noConfusion (show false = true from h),
      fun h => Bool.noConfusion (show false = true from h)⟩
  · intro hc hparse
    cases hs : w.localStorage.getItem "user" with
    | none =>
      have : (initEffect json w).1 = w := by simp [initEffect, hs]
      rw [this]
      exact hc
    | some text =>
      by_cases ht : (JsVal.str text).truthy = true
      · cases hp : json.parse text with
        | none =>
          have : (initEffect json w).1.auth = w.auth := by
            simp [initEffect, hs, ht, hydrateTry, hp]
          rw [this]
          exact hc
        | some value =>
          have hv := hparse text value hs hp
          have : (initEffect json w).1.auth =
              { w.auth with user := value, isAuthenticated := true } := by
            simp [initEffect, hs, ht, hydrateTry, hp, setUser, setIsAuthenticated]
          rw [this]
          unfold AuthState.Consistent
          exact ⟨fun _ => hv, fun _ => rfl⟩
      · have : (initEffect json w).1 = w := by simp [initEffect, hs, ht]
        rw [this]
        exact hc

/-! ## The menu -/

theorem App_RoleRoute_children_iff (allowedRoles : List String) (auth : AuthState)
    (h : auth.isLoading = false) :
    App.RoleRoute allowedRoles auth = GuardResult.children ↔
      auth.user.nonNull = true ∧
        ∃ name ∈ allowedRoles, auth.user.optProp "role" = JsVal.str name := by
  have hiff := role_test_iff allowedRoles auth.user
  cases htest : (!auth.user.truthy || !includesRole allowedRoles (auth.user.optProp "role")) with
  | false =>
    have hA : App.RoleRoute allowedRoles auth = GuardResult.children := by
      simp [App.RoleRoute, h, htest]
    rw [hA]
    exact ⟨fun _ => hiff.mp htest, fun _ => rfl⟩
  | true =>
    have hA : App.RoleRoute allowedRoles auth = GuardResult.assignHref "/" := by
      simp [App.RoleRoute, h, htest]
    rw [hA]
    constructor
    · intro hc
      exact absurd hc (by decide)
    · intro hc
      have := hiff.mpr hc
      rw [htest] at this
      exact absurd this (by decide)

/-- C28: for every auth state with isLoading = false (in particular those in
which isAuthenticated is true exactly when user is non-null), the paths of
getMenuItems start with '/cars', '/news', '/contacts'; '/favorites' is listed
only if PrivateRoute renders its children, '/moderator/news' only if RoleRoute
with ['MODERATOR', 'ADMIN'] does, and '/admin' only if RoleRoute with ['ADMIN']
does. -/
theorem menu_agrees_with_guards (auth : AuthState) (h : auth.isLoading = false) :
    ((Header.getMenuItems auth).map (fun item => item.path)).take 3 =
      ["/cars", "/news", "/contacts"] ∧
    ("/favorites" ∈ (Header.getMenuItems auth).map (fun item => item.path) →
      App.PrivateRoute auth = GuardResult.children) ∧
    ("/moderator/news" ∈ (Header.getMenuItems auth).map (fun item => item.path) →
      App.RoleRoute ["MODERATOR", "ADMIN"] auth = GuardResult.children) ∧
    ("/admin" ∈ (Header.getMenuItems auth).map (fun item => item.path) →
      App.RoleRoute ["ADMIN"] auth = GuardResult.children) := by
  have hrole : ∀ (allowedRoles : List String) (name : String), name ∈ allowedRoles →
      auth.user.optProp "role" = JsVal.str name →
      App.RoleRoute allowedRoles auth = GuardResult.children := by
    intro allowedRoles name hmem hname
    exact ((App_RoleRoute_children_iff allowedRoles auth h).mpr
      ⟨(optProp_str_truthy auth.user "role" name hname).2, name, hmem, hname⟩)
  cases ha : auth.isAuthenticated with
  | false =>
    simp [Header.getMenuItems, ha]
  | true =>
    have hp : App.PrivateRoute auth = GuardResult.children := by
      simp [App.PrivateRoute, h, ha]
    by_cases hm : auth.user.optProp "role" = JsVal.str "MODERATOR"
    · have hne : ¬ auth.user.optProp "role" = JsVal.str "ADMIN" := by
        rw [hm]; decide
      refine ⟨by simp [Header.getMenuItems, ha, hm], fun _ => hp,
        fun _ => hrole _ "MODERATOR" (by decide) hm, ?_⟩
      intro hin
      simp [Header.getMenuItems, ha, hm] at hin
    · by_cases hadm : auth.user.optProp "role" = JsVal.str "ADMIN"
      · exact ⟨by simp [Header.getMenuItems, ha, hadm], fun _ => hp,
          fun _ => hrole _ "ADMIN" (by decide) hadm, fun _ => hrole _ "ADMIN" (by decide) hadm⟩
      · refine ⟨by simp [Header.getMenuItems, ha, hm, hadm], fun _ => hp, ?_, ?_⟩
        · intro hin
          simp [Header.getMenuItems, ha, hm, hadm] at hin
        · intro hin
          simp [Header.getMenuItems, ha, hm, hadm] at hin

theorem menu_agrees_with_guards_witness :
    (Header.getMenuItems (sampleMember "ADMIN")).map (fun item => item.path) =
      ["/cars", "/news", "/contacts", "/favorites", "/moderator/news", "/admin"] ∧
    App.RoleRoute ["ADMIN"] (sampleMember "ADMIN") = GuardResult.children :=
  ⟨by decide, (menu_agrees_with_guards (sampleMember "ADMIN") rfl).2.2.2 (by decide)⟩

/-! ## The news sort comparator -/

/-- C30 (the code at the failing input): two news items whose dates cannot be
parsed. The comparator answers 1 for both orders, so the signs of cmp(a, b) and
cmp(b, a) are neither opposite nor both zero; this holds for every pair of
items with unparseable dates. For two valid dates it returns dateB - dateA, and
an item with an unparseable date is placed after one with a valid date. -/
theorem newsComparator_inconsistent_on_invalid_dates :
    parseDateForSorting sampleDateParse (sampleUndated 1 "soon").date = none ∧
    parseDateForSorting sampleDateParse (sampleUndated 2 "tba").date = none ∧
    newsComparator sampleDateParse (sampleUndated 1 "soon") (sampleUndated 2 "tba") = 1 ∧
    newsComparator sampleDateParse (sampleUndated 2 "tba") (sampleUndated 1 "soon") = 1 ∧
    newsComparator sampleDateParse (sampleUndated 1 "soon") (sampleUndated 1 "soon") = 1 ∧
    (∀ (dateParse : String → Option Int) (a b : NewsItem),
      parseDateForSorting dateParse a.date = none →
      parseDateForSorting dateParse b.date = none →
      newsComparator dateParse a b = 1 ∧ newsComparator dateParse b a = 1) ∧
    (∀ (dateParse : String → Option Int) (a b : NewsItem) (dateA dateB : Int),
      parseDateForSorting dateParse a.date = some dateA →
      parseDateForSorting dateParse b.date = some dateB →
      newsComparator dateParse a b = dateB - dateA ∧
      newsComparator dateParse b a = -(newsComparator dateParse a b)) ∧
    (∀ (dateParse : String → Option Int) (a b : NewsItem) (dateA : Int),
      parseDateForSorting dateParse a.date = some dateA →
      parseDateForSorting dateParse b.date = none →
      newsComparator dateParse a b = -1 ∧ newsComparator dateParse b a = 1) := by
  refine ⟨by decide, by decide, by decide, by decide, by decide, ?_, ?_, ?_⟩
  · intro dateParse a b ha hb
    simp [newsComparator, ha, hb]
  · intro dateParse a b dateA dateB ha hb
    simp [newsComparator, ha, hb]
  · intro dateParse a b dateA ha hb
    simp [newsComparator, ha, hb]

/-! ## Requests that fail after the check-session reply -/

/-- C2 (the code at the failing input): callers 1 and 2 have requests in
flight; the request of caller 1 answers 401 and the check-session call
succeeds; the request of caller 2 answers 401 while isRefreshing is still true
and is queued; the retry of caller 1 answers 500. The request of caller 1 was
re-issued, the request of caller 2 never is: its caller is rejected with the
500 of the other request's retry, and the session is wiped although the
check-session call succeeded. -/
theorem late_failure_rejected_without_retry :
    (run (lateFailureRetryFailsRun.take 5) sampleStart).isRefreshing = true ∧
    (run (lateFailureRetryFailsRun.take 5) sampleStart).failedQueue =
      [Pending.mk (sampleGet "/profile") (Kont.caller 2)] ∧
    sentConfigs (run (lateFailureRetryFailsRun.take 5) sampleStart).log =
      [sampleGet "/favorites", sampleGet "/profile", checkLoginConfig, sampleGet "/favorites"] ∧
    sentConfigs (run lateFailureRetryFailsRun sampleStart).log =
      [sampleGet "/favorites", sampleGet "/profile", checkLoginConfig, sampleGet "/favorites"] ∧
    (settlements (run lateFailureRetryFailsRun sampleStart).log).map
      (fun x => (x.1, rejectedStatus x.2)) = [(2, some 500), (1, some 500)] ∧
    (run lateFailureRetryFailsRun sampleStart).inflight = [] ∧
    (run lateFailureRetryFailsRun sampleStart).failedQueue = [] ∧
    (run lateFailureRetryFailsRun sampleStart).isRefreshing = false ∧
    (run lateFailureRetryFailsRun sampleStart).cookies.getItem "auth_token" = none ∧
    (run lateFailureRetryFailsRun sampleStart).href = some "/login" := by
  decide

/-- C9 (the code at the failing input): callers 1 and 2 have requests in
flight; the request of caller 1 answers 401 and the check-session call
succeeds; the request of caller 2 answers 401 while isRefreshing is still
true; the retry of caller 1 succeeds. Both requests failed with 401 during the
refresh, but only the first is re-issued: the second stays in failedQueue with
nothing in flight, isRefreshing is back to false and caller 2 is never
settled. -/
theorem late_failure_never_replayed :
    (run (lateFailureRetrySucceedsRun.take 5) sampleStart).isRefreshing = true ∧
    sentConfigs (run lateFailureRetrySucceedsRun sampleStart).log =
      [sampleGet "/favorites", sampleGet "/profile", checkLoginConfig, sampleGet "/favorites"] ∧
    (run lateFailureRetrySucceedsRun sampleStart).failedQueue =
      [Pending.mk (sampleGet "/profile") (Kont.caller 2)] ∧
    (run lateFailureRetrySucceedsRun sampleStart).inflight = [] ∧
    (run lateFailureRetrySucceedsRun sampleStart).jobs = [] ∧
    (run lateFailureRetrySucceedsRun sampleStart).isRefreshing = false ∧
    (settlements (run lateFailureRetrySucceedsRun sampleStart).log).map
      (fun x => (x.1, rejectedStatus x.2)) = [(1, none)] := by
  decide

/-! ## CarCatalog.applyFilters -/

theorem truthy_str (text : String) : (JsVal.str text).truthy = (text != "") := rfl

theorem ceilDiv_le_iff (length itemsPerPage n : Nat) (h : 0 < itemsPerPage) :
    ceilDiv length itemsPerPage ≤ n ↔ length ≤ n * itemsPerPage := by
  unfold ceilDiv
  rw [Nat.div_le_iff_le_mul_add_pred h, Nat.mul_comm itemsPerPage n]
  omega

theorem isPrefixOf_iff (sub : List Char) : ∀ s : List Char,
    sub.isPrefixOf s = true ↔ ∃ after, s = sub ++ after := by
  induction sub with
  | nil => intro s; simp
  | cons a sub ih =>
    intro s
    cases s with
    | nil => simp [List.isPrefixOf]
    | cons c cs =>
      simp only [List.isPrefixOf, Bool.and_eq_true, beq_iff_eq, ih cs, List.cons_append,
        List.cons.injEq]
      constructor
      · rintro ⟨rfl, after, rfl⟩
        exact ⟨after, rfl, rfl⟩
      · rintro ⟨after, rfl, rfl⟩
        exact ⟨rfl, after, rfl⟩

theorem includesChars_iff (sub : List Char) : ∀ s : List Char,
    includesChars sub s = true ↔ ∃ before after, s = before ++ sub ++ after := by
  intro s
  induction s with
  | nil =>
    cases sub with
    | nil => exact ⟨fun _ => ⟨[], [], rfl⟩, fun _ => rfl⟩
    | cons a sub =>
      constructor
      · intro h
        exact absurd h (by simp [includesChars])
      · rintro ⟨before, after, h⟩
        cases before <;> simp at h
  | cons c cs ih =>
    rw [includesChars, Bool.or_eq_true, ih, isPrefixOf_iff]
    constructor
    · rintro (⟨after, h⟩ | ⟨before, after, h⟩)
      · exact ⟨[], after, h⟩
      · exact ⟨c :: before, after, by rw [h]; rfl⟩
    · rintro ⟨before, after, h⟩
      cases before with
      | nil => exact Or.inl ⟨after, h⟩
      | cons d before =>
        simp only [List.cons_append, List.cons.injEq] at h
        exact Or.inr ⟨before, after, h.2⟩

theorem jsIncludes_iff (text term : String) : jsIncludes text term = true ↔ Contains text term := by
  unfold jsIncludes Contains
  rw [includesChars_iff]
  constructor
  · rintro ⟨before, after, h⟩
    exact ⟨String.mk before, String.mk after, String.ext (by simpa using h)⟩
  · rintro ⟨before, after, h⟩
    exact ⟨before.data, after.data, by rw [h]; simp⟩

theorem contains_empty (text : String) : Contains text "" :=
  ⟨text, "", by simp⟩

theorem contains_of_empty (term : String) (h : Contains "" term) : term = "" := by
  obtain ⟨before, after, h⟩ := h
  have hd := congrArg String.data h
  simp only [String.data_append] at hd
  have : term.data = [] := by
    have h2 := congrArg List.length hd
    simp only [String.data_append, List.length_append, List.length_nil] at h2
    exact List.eq_nil_of_length_eq_zero (by omega)
  exact String.ext this

theorem JsNumber.ge_iff (a b : JsNumber) : a.ge b = true ↔ b.AtMost a := by
  cases a <;> cases b <;> simp [JsNumber.ge, JsNumber.AtMost]

theorem JsNumber.le_iff (a b : JsNumber) : a.le b = true ↔ a.AtMost b := by
  cases a <;> cases b <;> simp [JsNumber.le, JsNumber.AtMost]

theorem searchMatches_iff (js : JsBuiltins) (term : String) (car : Car)
    (hlower : js.toLowerCase "" = "") :
    searchMatches js term car = true ↔
      Contains (js.toLowerCase car.brand) term ∨ Contains (js.toLowerCase car.model) term ∨
        ∃ text, car.description = some text ∧ Contains (js.toLowerCase text) term := by
  unfold searchMatches
  cases hd : car.description with
  | none => simp [jsIncludes_iff, or_assoc]
  | some text =>
    simp only [Bool.or_eq_true, Bool.and_eq_true, jsIncludes_iff, truthy_str, bne_iff_ne, ne_eq,
      Option.some.injEq, exists_eq_left', or_assoc]
    constructor
    · rintro (h | h | ⟨_, h⟩)
      · exact Or.inl h
      · exact Or.inr (Or.inl h)
      · exact Or.inr (Or.inr h)
    · rintro (h | h | h)
      · exact Or.inl h
      · exact Or.inr (Or.inl h)
      · by_cases ht : text = ""
        · subst ht
          rw [hlower] at h
          rw [contains_of_empty term h]
          exact Or.inl (contains_empty _)
        · exact Or.inr (Or.inr ⟨ht, h⟩)

/-- The three passes of applyFilters are one pass by a test that holds exactly
for the cars that satisfy all active filters. -/
theorem filterCars_eq_filter (js : JsBuiltins) (filters : Filters) (originalCars : List Car)
    (hlower : js.toLowerCase "" = "") :
    ∃ keep : Car → Bool, (∀ car, keep car = true ↔ satisfiesFilters js filters car) ∧
      filterCars js filters originalCars = originalCars.filter keep := by
  refine ⟨fun car =>
    (js.trim filters.search == "" ||
      searchMatches js (js.trim (js.toLowerCase filters.search)) car) &&
    ((filters.brand == "" || car.brand == filters.brand) &&
    ((filters.minPrice == "" && filters.maxPrice == "") ||
      (JsNumber.ge (JsNumber.finite car.price) (filters.lowerBound js) &&
       JsNumber.le (JsNumber.finite car.price) (filters.upperBound js)))), ?_, ?_⟩
  · intro car
    simp only [satisfiesFilters, Bool.and_eq_true, Bool.or_eq_true, beq_iff_eq,
      searchMatches_iff js _ car hlower, JsNumber.ge_iff, JsNumber.le_iff, ne_eq]
    refine and_congr ?_ (and_congr ?_ ?_)
    · exact ⟨fun h hne => h.resolve_left hne, fun h => or_iff_not_imp_left.mpr h⟩
    · exact ⟨fun h hne => h.resolve_left hne, fun h => or_iff_not_imp_left.mpr h⟩
    · constructor
      · intro h hne
        refine h.resolve_left ?_
        rintro ⟨h1, h2⟩
        exact hne.elim (fun hc => hc h1) (fun hc => hc h2)
      · intro h
        by_cases h1 : filters.minPrice = ""
        · by_cases h2 : filters.maxPrice = ""
          · exact Or.inl ⟨h1, h2⟩
          · exact Or.inr (h (Or.inr h2))
        · exact Or.inr (h (Or.inl h1))
  · have hlo : filters.lowerBound js =
        if (filters.minPrice == "") = true then JsNumber.finite 0
        else js.parseFloat filters.minPrice := by
      unfold Filters.lowerBound
      by_cases h : filters.minPrice = "" <;> simp [h]
    have hhi : filters.upperBound js =
        if (filters.maxPrice == "") = true then JsNumber.infinity
        else js.parseFloat filters.maxPrice := by
      unfold Filters.upperBound
      by_cases h : filters.maxPrice = "" <;> simp [h]
    unfold filterCars
    simp only [truthy_str, bne, hlo, hhi]
    rcases Bool.eq_false_or_eq_true (js.trim filters.search == "") with hs | hs <;>
      rcases Bool.eq_false_or_eq_true (filters.brand == "") with hb | hb <;>
      rcases Bool.eq_false_or_eq_true (filters.minPrice == "") with hmin | hmin <;>
      rcases Bool.eq_false_or_eq_true (filters.maxPrice == "") with hmax | hmax <;>
      simp only [hs, hb, hmin, hmax, Bool.not_true, Bool.not_false, Bool.false_eq_true, if_true,
        if_false, Bool.or_false, Bool.or_true, Bool.true_or, Bool.or_self, Bool.false_or,
        Bool.and_true, Bool.true_and, Bool.and_self, Bool.and_false, Bool.false_and,
        List.filter_filter] <;>
      first
      | (symm
         apply List.filter_eq_self.mpr
         intro car _
         rfl)
      | (apply List.filter_congr
         intro car _
         first | rfl | ac_rfl)

/-- C29: for built-ins with toLowerCase('') = '' and a positive page size,
after applyFilters the cars list is originalCars filtered by a test that holds
exactly for the cars that satisfy all active filters, so it is the sublist of
originalCars, in the original order, of the cars that satisfy them;
originalCars, the filters, the page and the page size are unchanged;
totalPages is the least number of pages of itemsPerPage cars that hold the
result, that is ceil(length / itemsPerPage); and with all filters empty the
cars list is originalCars. -/
theorem applyFilters_selects_matching_cars (js : JsBuiltins) (s : CatalogState)
    (hlower : js.toLowerCase "" = "") (hpage : 0 < s.pagination.itemsPerPage) :
    (∃ keep : Car → Bool, (∀ car, keep car = true ↔ satisfiesFilters js s.filters car) ∧
      (applyFilters js s).cars = s.originalCars.filter keep) ∧
    (∀ car, car ∈ (applyFilters js s).cars ↔
      car ∈ s.originalCars ∧ satisfiesFilters js s.filters car) ∧
    (applyFilters js s).cars.Sublist s.originalCars ∧
    (applyFilters js s).originalCars = s.originalCars ∧
    (applyFilters js s).filters = s.filters ∧
    (applyFilters js s).pagination.itemsPerPage = s.pagination.itemsPerPage ∧
    (applyFilters js s).pagination.page = s.pagination.page ∧
    (∀ n : Nat, (applyFilters js s).pagination.totalPages ≤ n ↔
      (applyFilters js s).cars.length ≤ n * s.pagination.itemsPerPage) ∧
    (js.trim "" = "" → s.filters = Filters.mk "" "" "" "" →
      (applyFilters js s).cars = s.originalCars) := by
  obtain ⟨keep, hkeep, hcars⟩ := filterCars_eq_filter js s.filters s.originalCars hlower
  have hcars2 : (applyFilters js s).cars = s.originalCars.filter keep := hcars
  refine ⟨⟨keep, hkeep, hcars2⟩, ?_, ?_, rfl, rfl, rfl, rfl, ?_, ?_⟩
  · intro car
    rw [hcars2, List.mem_filter, hkeep]
  · rw [hcars2]
    exact List.filter_sublist _
  · intro n
    exact ceilDiv_le_iff _ _ n hpage
  · intro htrim hempty
    rw [hcars2]
    apply List.filter_eq_self.mpr
    intro car _
    rw [hkeep, hempty]
    refine ⟨fun h => absurd htrim h, fun h => absurd rfl h, fun h => ?_⟩
    exact h.elim (fun hc => absurd rfl hc) (fun hc => absurd rfl hc)

theorem applyFilters_selects_matching_cars_witness :
    (applyFilters sampleBuiltins sampleCatalog).cars =
      [Car.mk 1 "Lada" "Vesta" (some "sedan") 12000,
       Car.mk 5 "UAZ" "Patriot" (some "like a Lada") (mkRat 19999 2)] ∧
    (∀ car, car ∈ (applyFilters sampleBuiltins sampleCatalog).cars ↔
      car ∈ sampleCars ∧ satisfiesFilters sampleBuiltins sampleCatalog.filters car) ∧
    ((applyFilters sampleBuiltins sampleCatalog).pagination.totalPages ≤ 1 ↔
      (applyFilters sampleBuiltins sampleCatalog).cars.length ≤ 1 * 9) :=
  have h := applyFilters_selects_matching_cars sampleBuiltins sampleCatalog (by decide)
    (by decide)
  ⟨by decide, h.2.1, h.2.2.2.2.2.2.2.1 1⟩

end CarPortal
